import Mathlib

/-!
2D camera platformer: physics step and camera strategies.

A shallow embedding of `src/main.cpp`.

* C `float` values are idealised as elements of an arbitrary linearly ordered
  field `F` (exact arithmetic, no rounding, no NaN).  Every definition is
  computable and can be run at `F := ℚ`; every theorem holds at `F := ℝ` too.
* Functions that mutate their arguments through pointers return the updated
  value; `printf` output is returned as a list of lines.
* The keyboard (`IsKeyDown`) is an explicit `Keys` argument.
* `static` locals of a function become an explicit state record.
* The raymath / raylib helpers the program calls (`Vector2Subtract`,
  `Vector2Add`, `Vector2Scale`, `GetWorldToScreen2D`, `GetScreenToWorld2D`) are
  written out for a camera with rotation 0, the only rotation the program
  ever uses; `Vector2Length` needs a square root and is an argument.
-/

namespace BrewingGame

variable {F : Type} [LinearOrderedField F]

/-! ## Data model -/

/-- Raylib `Vector2`. -/
@[ext]
structure Vector2 (F : Type) where
  x : F
  y : F
deriving DecidableEq

/-- Raylib `Rectangle`. -/
structure Rectangle (F : Type) where
  x : F
  y : F
  width : F
  height : F
deriving DecidableEq

/-- Raylib `Color` (four bytes). -/
structure Color where
  r : Nat
  g : Nat
  b : Nat
  a : Nat
deriving DecidableEq

/-- Source `struct Character`. -/
@[ext]
structure Character (F : Type) where
  position : Vector2 F
  lastPosition : Vector2 F
  speed : F
  canJump : Bool
deriving DecidableEq

/-- Source `struct EnvItem`; `blocking` is a C `int` used as a truth value. -/
structure EnvItem (F : Type) where
  rect : Rectangle F
  blocking : Int
  color : Color
deriving DecidableEq

/-- Source `class DetectArea`; `active` is a C `int` used as a truth value. -/
structure DetectArea (F : Type) where
  base : EnvItem F
  active : Int
  channel : Int
deriving DecidableEq

/-- Raylib `Camera2D`. -/
@[ext]
structure Camera2D (F : Type) where
  offset : Vector2 F
  target : Vector2 F
  rotation : F
  zoom : F
deriving DecidableEq

/-- Held movement keys: the answers of `IsKeyDown` for the four arrow keys. -/
structure Keys where
  left : Bool
  right : Bool
  down : Bool
  up : Bool
deriving DecidableEq

/-- Source `#define G 400`. -/
def G : F := 400

/-- Source `#define PLAYER_SPD 200.0f`. -/
def PLAYER_SPD : F := 200

/-! ## Bounds test -/

/-- Source `InBounds` (lines 223-227). -/
def InBounds (pos : Vector2 F) (rect : Rectangle F) (delta : F) : Bool :=
  decide (pos.x + delta ≥ rect.x) && decide (pos.x - delta ≤ rect.x + rect.width) &&
    decide (pos.y + delta ≥ rect.y) && decide (pos.y - delta ≤ rect.y + rect.height)

/-! ## Physics / input step -/

/-- Lines 233-240 of `UpdateCharacter`: the four independent key tests, in
source order (left, right, down, up). -/
def applyKeys (keys : Keys) (player : Character F) (delta : F) : Character F :=
  let p1 : Character F :=
    if keys.left then
      { player with position := { player.position with x := player.position.x - PLAYER_SPD * delta } }
    else player
  let p2 : Character F :=
    if keys.right then
      { p1 with position := { p1.position with x := p1.position.x + PLAYER_SPD * delta } }
    else p1
  let p3 : Character F :=
    if keys.down then
      { p2 with position := { p2.position with y := p2.position.y + PLAYER_SPD * delta } }
    else p2
  if keys.up then
    { p3 with position := { p3.position with y := p3.position.y - PLAYER_SPD * delta } }
  else p3

/-- Lines 242-262 of `UpdateCharacter`: the obstacle loop.  Returns the final
`hitObstacle` flag and the player; the first blocking item whose rectangle is
in bounds zeroes the speed, restores the position and ends the loop (`break`). -/
def scanObstacles (envItems : List (EnvItem F)) (delta : F) (player : Character F) :
    Bool × Character F :=
  match envItems with
  | [] => (false, player)
  | ei :: rest =>
    if (ei.blocking != 0) && InBounds player.position ei.rect delta then
      (true, { player with
                speed := 0
                position := { x := player.lastPosition.x, y := player.lastPosition.y } })
    else scanObstacles rest delta player

/-- The line printed for a channel-1 detection. -/
def detectionMessage : String := "Player is in the detection area\n"

/-- Lines 264-272 of `UpdateCharacter`: the detection loop; its only effect is
the `printf` guarded by `di->channel == 1`, returned here as the lines printed. -/
def scanDetection (detectionItems : List (DetectArea F)) (delta : F) (player : Character F) :
    List String :=
  match detectionItems with
  | [] => []
  | di :: rest =>
    (if (di.active != 0) && InBounds player.position di.base.rect delta then
      (if di.channel = 1 then [detectionMessage] else [])
    else []) ++ scanDetection rest delta player

/-- Source `UpdateCharacter` (lines 230-279).  Returns the updated player and
the lines printed by the detection loop. -/
def UpdateCharacter (keys : Keys) (player : Character F) (envItems : List (EnvItem F))
    (detectionItems : List (DetectArea F)) (delta : F) : Character F × List String :=
  let moved := applyKeys keys player delta
  let scanned := scanObstacles envItems delta moved
  let hitObstacle := scanned.1
  let p := scanned.2
  let out := scanDetection detectionItems delta p
  if !hitObstacle then
    ({ p with
        lastPosition := { x := p.position.x, y := p.position.y }
        speed := p.speed + G * delta }, out)
  else (p, out)

/-- A run of the physics step over a sequence of frames (held keys and frame
time of each), as the main loop does with a fixed level. -/
def runCharacter (envItems : List (EnvItem F)) (detectionItems : List (DetectArea F))
    (frames : List (Keys × F)) (player : Character F) : Character F :=
  match frames with
  | [] => player
  | (keys, delta) :: rest =>
    runCharacter envItems detectionItems rest
      (UpdateCharacter keys player envItems detectionItems delta).1

/-- Some blocking item of the level has `pos` in bounds at tolerance `delta`. -/
def collides (envItems : List (EnvItem F)) (pos : Vector2 F) (delta : F) : Bool :=
  envItems.any (fun ei => (ei.blocking != 0) && InBounds pos ei.rect delta)

/-! ## Raymath / raylib helpers (rotation 0) -/

/-- Raymath `Vector2Add`. -/
def Vector2Add (v1 v2 : Vector2 F) : Vector2 F := { x := v1.x + v2.x, y := v1.y + v2.y }

/-- Raymath `Vector2Subtract`. -/
def Vector2Subtract (v1 v2 : Vector2 F) : Vector2 F := { x := v1.x - v2.x, y := v1.y - v2.y }

/-- Raymath `Vector2Scale`. -/
def Vector2Scale (v : Vector2 F) (scale : F) : Vector2 F := { x := v.x * scale, y := v.y * scale }

/-- Raylib `GetWorldToScreen2D` for a camera with rotation 0:
`screen = (world - target) * zoom + offset`. -/
def GetWorldToScreen2D (position : Vector2 F) (camera : Camera2D F) : Vector2 F :=
  { x := (position.x - camera.target.x) * camera.zoom + camera.offset.x
    y := (position.y - camera.target.y) * camera.zoom + camera.offset.y }

/-- Raylib `GetScreenToWorld2D` for a camera with rotation 0:
`world = (screen - offset) / zoom + target`. -/
def GetScreenToWorld2D (position : Vector2 F) (camera : Camera2D F) : Vector2 F :=
  { x := (position.x - camera.offset.x) / camera.zoom + camera.target.x
    y := (position.y - camera.offset.y) / camera.zoom + camera.target.y }

/-- The value `len` is the Euclidean length of `v`, what raymath's
`Vector2Length` returns: `len` is non-negative and its square is
`v.x ^ 2 + v.y ^ 2`. -/
def IsLength (v : Vector2 F) (len : F) : Prop :=
  0 ≤ len ∧ len * len = v.x * v.x + v.y * v.y

/-! ## Camera strategies -/

/-- Source `UpdateCameraCenter` (lines 281-286). -/
def UpdateCameraCenter (camera : Camera2D F) (player : Character F)
    (_envItems : List (EnvItem F)) (_delta : F) (width height : Int) : Camera2D F :=
  let camera1 : Camera2D F :=
    { camera with offset := { x := (width : F) / 2, y := (height : F) / 2 } }
  { camera1 with target := player.position }

/-- The four running extremes of the loop in `UpdateCameraCenterInsideMap`. -/
structure MapBounds (F : Type) where
  minX : F
  minY : F
  maxX : F
  maxY : F
deriving DecidableEq

/-- Lines 295-301 of `UpdateCameraCenterInsideMap`: the loop over the items,
from the given running extremes. -/
def scanBounds (envItems : List (EnvItem F)) (b : MapBounds F) : MapBounds F :=
  match envItems with
  | [] => b
  | ei :: rest =>
    scanBounds rest
      { minX := min ei.rect.x b.minX
        maxX := max (ei.rect.x + ei.rect.width) b.maxX
        minY := min ei.rect.y b.minY
        maxY := max (ei.rect.y + ei.rect.height) b.maxY }

/-- Lines 293-301 of `UpdateCameraCenterInsideMap`: the extremes after the
loop, started from `1000, 1000, -1000, -1000`. -/
def mapBounds (envItems : List (EnvItem F)) : MapBounds F :=
  scanBounds envItems { minX := 1000, minY := 1000, maxX := -1000, maxY := -1000 }

/-- Source `UpdateCameraCenterInsideMap` (lines 288-314).  In the four
corrections `width / 2` and `height / 2` divide two C `int`s. -/
def UpdateCameraCenterInsideMap (camera : Camera2D F) (player : Character F)
    (envItems : List (EnvItem F)) (_delta : F) (width height : Int) : Camera2D F :=
  let camera1 : Camera2D F := { camera with target := player.position }
  let camera2 : Camera2D F :=
    { camera1 with offset := { x := (width : F) / 2, y := (height : F) / 2 } }
  let b := mapBounds envItems
  let max := GetWorldToScreen2D { x := b.maxX, y := b.maxY } camera2
  let min := GetWorldToScreen2D { x := b.minX, y := b.minY } camera2
  let camera3 : Camera2D F :=
    if max.x < (width : F) then
      { camera2 with offset := { camera2.offset with
          x := (width : F) - (max.x - ((Int.tdiv width 2 : Int) : F)) } }
    else camera2
  let camera4 : Camera2D F :=
    if max.y < (height : F) then
      { camera3 with offset := { camera3.offset with
          y := (height : F) - (max.y - ((Int.tdiv height 2 : Int) : F)) } }
    else camera3
  let camera5 : Camera2D F :=
    if min.x > 0 then
      { camera4 with offset := { camera4.offset with
          x := ((Int.tdiv width 2 : Int) : F) - min.x } }
    else camera4
  if min.y > 0 then
    { camera5 with offset := { camera5.offset with
        y := ((Int.tdiv height 2 : Int) : F) - min.y } }
  else camera5

/-- Source `UpdateCameraCenterSmoothFollow` (lines 316-332); the three
`static` floats are never written, so they are constants.  `Vector2Length`
is raymath's length function. -/
def UpdateCameraCenterSmoothFollow (Vector2Length : Vector2 F → F) (camera : Camera2D F)
    (player : Character F) (_envItems : List (EnvItem F)) (delta : F) (width height : Int) :
    Camera2D F :=
  let minSpeed : F := 30
  let minEffectLength : F := 10
  let fractionSpeed : F := 0.8
  let camera1 : Camera2D F :=
    { camera with offset := { x := (width : F) / 2, y := (height : F) / 2 } }
  let diff := Vector2Subtract player.position camera1.target
  let length := Vector2Length diff
  if length > minEffectLength then
    let speed := max (fractionSpeed * length) minSpeed
    { camera1 with
        target := Vector2Add camera1.target (Vector2Scale diff (speed * delta / length)) }
  else camera1

/-- The `static` locals `eveningOut` and `evenOutTarget` of
`UpdateCameraEvenOutOnLanding`, which persist between calls. -/
structure EvenOutState (F : Type) where
  eveningOut : Int
  evenOutTarget : F
deriving DecidableEq

/-- The value of the `static` locals before the first call. -/
def EvenOutState.initial : EvenOutState F := { eveningOut := 0, evenOutTarget := 0 }

/-- Source `UpdateCameraEvenOutOnLanding` (lines 334-367), with its `static`
locals passed in and returned; `evenOutSpeed` is never written. -/
def UpdateCameraEvenOutOnLanding (st : EvenOutState F) (camera : Camera2D F)
    (player : Character F) (_envItems : List (EnvItem F)) (delta : F) (width height : Int) :
    EvenOutState F × Camera2D F :=
  let evenOutSpeed : F := 700
  let camera1 : Camera2D F :=
    { camera with offset := { x := (width : F) / 2, y := (height : F) / 2 } }
  let camera2 : Camera2D F :=
    { camera1 with target := { camera1.target with x := player.position.x } }
  if st.eveningOut != 0 then
    if st.evenOutTarget > camera2.target.y then
      let camera3 : Camera2D F :=
        { camera2 with target := { camera2.target with y := camera2.target.y + evenOutSpeed * delta } }
      if camera3.target.y > st.evenOutTarget then
        ({ st with eveningOut := 0 },
          { camera3 with target := { camera3.target with y := st.evenOutTarget } })
      else (st, camera3)
    else
      let camera3 : Camera2D F :=
        { camera2 with target := { camera2.target with y := camera2.target.y - evenOutSpeed * delta } }
      if camera3.target.y < st.evenOutTarget then
        ({ st with eveningOut := 0 },
          { camera3 with target := { camera3.target with y := st.evenOutTarget } })
      else (st, camera3)
  else
    if player.canJump && decide (player.speed = 0) &&
        decide (player.position.y ≠ camera2.target.y) then
      ({ eveningOut := 1, evenOutTarget := player.position.y }, camera2)
    else (st, camera2)

/-- Source `UpdateCameraCharacterBoundsPush` (lines 369-391); `bbox` is never
written.  Both box corners are taken under the camera as passed in, before the
offset is overwritten. -/
def UpdateCameraCharacterBoundsPush (camera : Camera2D F) (player : Character F)
    (_envItems : List (EnvItem F)) (_delta : F) (width height : Int) : Camera2D F :=
  let bbox : Vector2 F := { x := 0.2, y := 0.2 }
  let bboxWorldMin := GetScreenToWorld2D
    { x := (1 - bbox.x) * 0.5 * (width : F), y := (1 - bbox.y) * 0.5 * (height : F) } camera
  let bboxWorldMax := GetScreenToWorld2D
    { x := (1 + bbox.x) * 0.5 * (width : F), y := (1 + bbox.y) * 0.5 * (height : F) } camera
  let camera1 : Camera2D F :=
    { camera with offset :=
        { x := (1 - bbox.x) * 0.5 * (width : F), y := (1 - bbox.y) * 0.5 * (height : F) } }
  let camera2 : Camera2D F :=
    if player.position.x < bboxWorldMin.x then
      { camera1 with target := { camera1.target with x := player.position.x } }
    else camera1
  let camera3 : Camera2D F :=
    if player.position.y < bboxWorldMin.y then
      { camera2 with target := { camera2.target with y := player.position.y } }
    else camera2
  let camera4 : Camera2D F :=
    if player.position.x > bboxWorldMax.x then
      { camera3 with target := { camera3.target with
          x := bboxWorldMin.x + (player.position.x - bboxWorldMax.x) } }
    else camera3
  if player.position.y > bboxWorldMax.y then
    { camera4 with target := { camera4.target with
        y := bboxWorldMin.y + (player.position.y - bboxWorldMax.y) } }
  else camera4

/-- The top-left screen corner of the dead box of
`UpdateCameraCharacterBoundsPush`, the point its offset is set to. -/
def bboxScreenMin (width height : Int) : Vector2 F :=
  { x := (1 - 0.2) * 0.5 * (width : F), y := (1 - 0.2) * 0.5 * (height : F) }

/-- The bottom-right screen corner of the dead box of
`UpdateCameraCharacterBoundsPush`. -/
def bboxScreenMax (width height : Int) : Vector2 F :=
  { x := (1 + 0.2) * 0.5 * (width : F), y := (1 + 0.2) * 0.5 * (height : F) }

/-! ## The program's constant data (source `main`, lines 75-116) -/

/-- Source `screenWidth`. -/
def screenWidth : Int := 800

/-- Source `screenHeight`. -/
def screenHeight : Int := 450

/-- The player as initialised by `main` (lines 80-84). -/
def initialPlayer : Character F :=
  { position := { x := 400, y := 280 }
    lastPosition := { x := 400, y := 280 }
    speed := 0
    canJump := false }

/-- The level of `main` (lines 88-92), with raylib's colour constants. -/
def mainEnvItems : List (EnvItem F) :=
  [ { rect := { x := 0, y := 0, width := 1000, height := 400 }, blocking := 0,
      color := { r := 253, g := 249, b := 0, a := 255 } },
    { rect := { x := 0, y := 400, width := 1000, height := 20 }, blocking := 1,
      color := { r := 0, g := 0, b := 0, a := 255 } },
    { rect := { x := 300, y := 200, width := 400, height := 10 }, blocking := 1,
      color := { r := 0, g := 121, b := 241, a := 255 } },
    { rect := { x := 250, y := 300, width := 100, height := 10 }, blocking := 1,
      color := { r := 255, g := 161, b := 0, a := 255 } },
    { rect := { x := 650, y := 300, width := 100, height := 10 }, blocking := 1,
      color := { r := 130, g := 130, b := 130, a := 255 } } ]

/-- The single detection area of `main` (lines 97-105). -/
def mainDetectionItems : List (DetectArea F) :=
  [ { base := { rect := { x := 100, y := 100, width := 100, height := 100 }, blocking := 0,
                color := { r := 127, g := 106, b := 79, a := 128 } },
      active := 1, channel := 1 } ]

/-- The camera as initialised by `main` (lines 112-116). -/
def initialCamera : Camera2D F :=
  { target := { x := 400, y := 280 }
    offset := { x := (screenWidth : F) / 2, y := (screenHeight : F) / 2 }
    rotation := 0
    zoom := 1 }

/-- The player of `main` placed at `(x, y)`. -/
def playerAt (x y : F) : Character F :=
  { position := { x := x, y := y }
    lastPosition := { x := x, y := y }
    speed := 0
    canJump := false }

/-- The camera of `main` with another zoom. -/
def cameraWithZoom (zoom : F) : Camera2D F :=
  { target := { x := 400, y := 280 }
    offset := { x := (screenWidth : F) / 2, y := (screenHeight : F) / 2 }
    rotation := 0
    zoom := zoom }

/-- The camera of `main` after a first call of
`UpdateCameraCharacterBoundsPush`: its offset is the dead box's corner. -/
def anchoredCamera : Camera2D F :=
  { target := { x := 400, y := 280 }
    offset := bboxScreenMin screenWidth screenHeight
    rotation := 0
    zoom := 1 }

/-- The detection area of `main` moved to channel 2. -/
def channelTwoArea : DetectArea F :=
  { base := { rect := { x := 100, y := 100, width := 100, height := 100 }, blocking := 0,
              color := { r := 127, g := 106, b := 79, a := 128 } },
    active := 1, channel := 2 }

/-- No movement key held. -/
def noKeys : Keys := { left := false, right := false, down := false, up := false }

/-- Only the up key held. -/
def upKey : Keys := { left := false, right := false, down := false, up := true }

/-- Only the right key held. -/
def rightKey : Keys := { left := false, right := true, down := false, up := false }

/-! ## The frame update (source `main`, lines 119-164) -/

/-- Source `cameraUpdatersLength`: the table `cameraUpdaters` has five entries. -/
def cameraUpdatersLength : Int := 5

/-- What the frame update of `main` reads and writes: the player, the camera,
the index `cameraOption`, and the `static` locals of
`UpdateCameraEvenOutOnLanding`. -/
structure GameState (F : Type) where
  player : Character F
  camera : Camera2D F
  cameraOption : Int
  evenOut : EvenOutState F
deriving DecidableEq

/-- What one frame gets from the host: `GetFrameTime`, the held arrow keys,
`IsKeyPressed(KEY_R)` and `IsKeyPressed(KEY_C)`. -/
structure FrameInput (F : Type) where
  deltaTime : F
  keys : Keys
  keyR : Bool
  keyC : Bool
deriving DecidableEq

/-- The state `main` builds before its loop (lines 80-84, 112-116, 125 and the
`static` initialisers). -/
def initialState : GameState F :=
  { player := initialPlayer
    camera := initialCamera
    cameraOption := 1
    evenOut := EvenOutState.initial }

/-- Lines 149-152 of `main`: the zoom clamp. -/
def clampZoom (camera : Camera2D F) : Camera2D F :=
  if camera.zoom > 3.0 then { camera with zoom := 3.0 }
  else if camera.zoom < 0.25 then { camera with zoom := 0.25 }
  else camera

/-- Lines 155-156 of `main`: the body of the reset branch. -/
def resetCommand (s : GameState F) : GameState F :=
  let s1 : GameState F := { s with camera := { s.camera with zoom := 1.0 } }
  { s1 with player := { s1.player with position := { x := 400, y := 280 } } }

/-- Line 160 of `main`: `(cameraOption + 1) % cameraUpdatersLength` on C
`int`s. -/
def nextCameraOption (cameraOption : Int) : Int :=
  Int.tmod (cameraOption + 1) cameraUpdatersLength

/-- Lines 163-164 of `main`: the call through `cameraUpdaters[cameraOption]`.
An index outside the table has no meaning in C and gives `none`. -/
def callCameraUpdater (Vector2Length : Vector2 F → F) (cameraOption : Int)
    (st : EvenOutState F) (camera : Camera2D F) (player : Character F)
    (envItems : List (EnvItem F)) (delta : F) (width height : Int) :
    Option (EvenOutState F × Camera2D F) :=
  if cameraOption = 0 then
    some (st, UpdateCameraCenter camera player envItems delta width height)
  else if cameraOption = 1 then
    some (st, UpdateCameraCenterInsideMap camera player envItems delta width height)
  else if cameraOption = 2 then
    some (st, UpdateCameraCenterSmoothFollow Vector2Length camera player envItems delta
      width height)
  else if cameraOption = 3 then
    some (UpdateCameraEvenOutOnLanding st camera player envItems delta width height)
  else if cameraOption = 4 then
    some (st, UpdateCameraCharacterBoundsPush camera player envItems delta width height)
  else none

/-- Lines 142-160 of `main`: physics step, zoom clamp, reset on R, next
strategy on C.  Returns the state the camera updater is called with and the
lines the physics step printed. -/
def updateBeforeCamera (envItems : List (EnvItem F)) (detectionItems : List (DetectArea F))
    (inp : FrameInput F) (s : GameState F) : GameState F × List String :=
  let deltaTime := inp.deltaTime
  let stepped := UpdateCharacter inp.keys s.player envItems detectionItems deltaTime
  let s1 : GameState F := { s with player := stepped.1 }
  let s2 : GameState F := { s1 with camera := clampZoom s1.camera }
  let s3 : GameState F := if inp.keyR then resetCommand s2 else s2
  let s4 : GameState F :=
    if inp.keyC then { s3 with cameraOption := nextCameraOption s3.cameraOption } else s3
  (s4, stepped.2)

/-- The update part of one pass of the main loop (lines 142-164): the steps of
`updateBeforeCamera`, then the selected camera updater.  Returns the new state
and the lines the physics step printed. -/
def frame (Vector2Length : Vector2 F → F) (envItems : List (EnvItem F))
    (detectionItems : List (DetectArea F)) (inp : FrameInput F) (s : GameState F) :
    Option (GameState F × List String) :=
  let pre := updateBeforeCamera envItems detectionItems inp s
  match callCameraUpdater Vector2Length pre.1.cameraOption pre.1.evenOut pre.1.camera
      pre.1.player envItems inp.deltaTime screenWidth screenHeight with
  | none => none
  | some r => some ({ pre.1 with evenOut := r.1, camera := r.2 }, pre.2)

/-- The numbers `b` are the axis-aligned bounding box of the items: each is a
bound of the corresponding coordinate of every item and is attained by one. -/
def IsBoundingBox (envItems : List (EnvItem F)) (b : MapBounds F) : Prop :=
  ((∀ ei ∈ envItems, b.minX ≤ ei.rect.x) ∧ ∃ ei ∈ envItems, b.minX = ei.rect.x) ∧
  ((∀ ei ∈ envItems, b.minY ≤ ei.rect.y) ∧ ∃ ei ∈ envItems, b.minY = ei.rect.y) ∧
  ((∀ ei ∈ envItems, ei.rect.x + ei.rect.width ≤ b.maxX) ∧
    ∃ ei ∈ envItems, b.maxX = ei.rect.x + ei.rect.width) ∧
  ((∀ ei ∈ envItems, ei.rect.y + ei.rect.height ≤ b.maxY) ∧
    ∃ ei ∈ envItems, b.maxY = ei.rect.y + ei.rect.height)

/-- A level of one blocking item that lies right of `x = 1000`. -/
def farEnvItems : List (EnvItem F) :=
  [ { rect := { x := 2000, y := 0, width := 100, height := 100 }, blocking := 1,
      color := { r := 0, g := 0, b := 0, a := 255 } } ]

/-- Bool as the C truth value 0 or 1, for the key terms of `UpdateCharacter`. -/
def keyTerm (held : Bool) : F := if held then 1 else 0

/-- A frame of 1/10 s with the right key held and R pressed. -/
def resetWhileMovingInput : FrameInput F :=
  { deltaTime := 1 / 10, keys := rightKey, keyR := true, keyC := false }

/-- A frame of 1/60 s with no key held or pressed. -/
def idleInput : FrameInput F :=
  { deltaTime := 1 / 60, keys := noKeys, keyR := false, keyC := false }

/-- The initial state of `main` with another zoom. -/
def stateWithZoom (zoom : F) : GameState F :=
  { player := initialPlayer
    camera := cameraWithZoom zoom
    cameraOption := 1
    evenOut := EvenOutState.initial }

/-! ## Lemmas on the physics step -/

theorem applyKeys_lastPosition (keys : Keys) (player : Character F) (delta : F) :
    (applyKeys keys player delta).lastPosition = player.lastPosition := by
  unfold applyKeys
  cases keys.left <;> cases keys.right <;> cases keys.down <;> cases keys.up <;> rfl

theorem applyKeys_speed (keys : Keys) (player : Character F) (delta : F) :
    (applyKeys keys player delta).speed = player.speed := by
  unfold applyKeys
  cases keys.left <;> cases keys.right <;> cases keys.down <;> cases keys.up <;> rfl

theorem applyKeys_canJump (keys : Keys) (player : Character F) (delta : F) :
    (applyKeys keys player delta).canJump = player.canJump := by
  unfold applyKeys
  cases keys.left <;> cases keys.right <;> cases keys.down <;> cases keys.up <;> rfl

theorem applyKeys_none (player : Character F) (delta : F) :
    applyKeys { left := false, right := false, down := false, up := false } player delta
      = player := by
  simp [applyKeys]

theorem collides_eq_true_iff (envItems : List (EnvItem F)) (pos : Vector2 F) (delta : F) :
    collides envItems pos delta = true ↔
      ∃ ei ∈ envItems, ei.blocking ≠ 0 ∧ InBounds pos ei.rect delta = true := by
  simp [collides]

theorem collides_eq_false_iff (envItems : List (EnvItem F)) (pos : Vector2 F) (delta : F) :
    collides envItems pos delta = false ↔
      ∀ ei ∈ envItems, ei.blocking ≠ 0 → InBounds pos ei.rect delta = false := by
  simp [collides]

theorem scanObstacles_hit (envItems : List (EnvItem F)) (delta : F) (player : Character F)
    (h : collides envItems player.position delta = true) :
    scanObstacles envItems delta player
      = (true, { player with speed := 0, position := player.lastPosition }) := by
  induction envItems with
  | nil => simp [collides] at h
  | cons ei rest ih =>
    unfold scanObstacles
    by_cases hc : ((ei.blocking != 0) && InBounds player.position ei.rect delta) = true
    · rw [if_pos hc]
    · rw [if_neg hc]
      apply ih
      simp only [collides, List.any_cons, Bool.or_eq_true] at h
      rcases h with h | h
      · exact absurd h hc
      · exact h

theorem scanObstacles_miss (envItems : List (EnvItem F)) (delta : F) (player : Character F)
    (h : collides envItems player.position delta = false) :
    scanObstacles envItems delta player = (false, player) := by
  induction envItems with
  | nil => rfl
  | cons ei rest ih =>
    unfold scanObstacles
    simp only [collides, List.any_cons, Bool.or_eq_false_iff] at h
    rw [if_neg (by simp [h.1])]
    exact ih h.2

/-- The player after a step whose moved position collides. -/
theorem UpdateCharacter_hit (keys : Keys) (player : Character F) (envItems : List (EnvItem F))
    (detectionItems : List (DetectArea F)) (delta : F)
    (h : collides envItems (applyKeys keys player delta).position delta = true) :
    (UpdateCharacter keys player envItems detectionItems delta).1
      = { player with speed := 0, position := player.lastPosition } := by
  simp only [UpdateCharacter, scanObstacles_hit _ _ _ h]
  simp [applyKeys_lastPosition, applyKeys_canJump]

/-- The player after a step whose moved position does not collide. -/
theorem UpdateCharacter_miss (keys : Keys) (player : Character F) (envItems : List (EnvItem F))
    (detectionItems : List (DetectArea F)) (delta : F)
    (h : collides envItems (applyKeys keys player delta).position delta = false) :
    (UpdateCharacter keys player envItems detectionItems delta).1
      = { player with
            position := (applyKeys keys player delta).position
            lastPosition := (applyKeys keys player delta).position
            speed := player.speed + G * delta } := by
  simp only [UpdateCharacter, scanObstacles_miss _ _ _ h]
  simp [applyKeys_speed, applyKeys_canJump]

/-! ## C1, C2 -/

/-- C1: collision rollback.  If the position obtained by applying the held keys
is in bounds (tolerance `delta`) of at least one item with `blocking` set, then
after `UpdateCharacter` the position is the `lastPosition` from before the
step, the speed is 0 and `lastPosition` is unchanged. -/
theorem C1_collision_rollback (keys : Keys) (player : Character F)
    (envItems : List (EnvItem F)) (detectionItems : List (DetectArea F)) (delta : F)
    (h : ∃ ei ∈ envItems, ei.blocking ≠ 0 ∧
      InBounds (applyKeys keys player delta).position ei.rect delta = true) :
    (UpdateCharacter keys player envItems detectionItems delta).1.position
        = player.lastPosition ∧
      (UpdateCharacter keys player envItems detectionItems delta).1.speed = 0 ∧
      (UpdateCharacter keys player envItems detectionItems delta).1.lastPosition
        = player.lastPosition := by
  rw [UpdateCharacter_hit keys player envItems detectionItems delta
    ((collides_eq_true_iff _ _ _).2 h)]
  exact ⟨rfl, rfl, rfl⟩

/-- C2: idle step.  If no movement key is held and the position is not in
bounds (tolerance `delta`) of any blocking item, then `UpdateCharacter` leaves
the position unchanged, sets `lastPosition` to it and adds exactly
`400 * delta` to the speed. -/
theorem C2_idle_step (player : Character F) (envItems : List (EnvItem F))
    (detectionItems : List (DetectArea F)) (delta : F)
    (h : ∀ ei ∈ envItems, ei.blocking ≠ 0 → InBounds player.position ei.rect delta = false) :
    (UpdateCharacter { left := false, right := false, down := false, up := false }
        player envItems detectionItems delta).1.position = player.position ∧
      (UpdateCharacter { left := false, right := false, down := false, up := false }
        player envItems detectionItems delta).1.lastPosition = player.position ∧
      (UpdateCharacter { left := false, right := false, down := false, up := false }
        player envItems detectionItems delta).1.speed = player.speed + 400 * delta := by
  have hc : collides envItems
      (applyKeys { left := false, right := false, down := false, up := false }
        player delta).position delta = false := by
    rw [applyKeys_none]
    exact (collides_eq_false_iff _ _ _).2 h
  rw [UpdateCharacter_miss _ player envItems detectionItems delta hc, applyKeys_none]
  exact ⟨rfl, rfl, rfl⟩

/-- Witness of C1: from the spawn point of `main`, holding up for a frame of
2/5 s reaches the blue platform and is rolled back. -/
theorem C1_collision_rollback_witness :
    (∃ ei ∈ (mainEnvItems : List (EnvItem ℚ)), ei.blocking ≠ 0 ∧
        InBounds (applyKeys upKey (initialPlayer : Character ℚ) (2 / 5)).position ei.rect (2 / 5)
          = true) ∧
      (UpdateCharacter upKey (initialPlayer : Character ℚ) mainEnvItems mainDetectionItems
          (2 / 5)).1.position = { x := 400, y := 280 } ∧
      (UpdateCharacter upKey (initialPlayer : Character ℚ) mainEnvItems mainDetectionItems
          (2 / 5)).1.speed = 0 ∧
      (UpdateCharacter upKey (initialPlayer : Character ℚ) mainEnvItems mainDetectionItems
          (2 / 5)).1.lastPosition = { x := 400, y := 280 } := by
  have h : ∃ ei ∈ (mainEnvItems : List (EnvItem ℚ)), ei.blocking ≠ 0 ∧
      InBounds (applyKeys upKey (initialPlayer : Character ℚ) (2 / 5)).position ei.rect (2 / 5)
        = true := by
    refine ⟨{ rect := { x := 300, y := 200, width := 400, height := 10 }, blocking := 1,
              color := { r := 0, g := 121, b := 241, a := 255 } }, ?_, ?_, ?_⟩
    · simp [mainEnvItems]
    · decide
    · simp [InBounds, applyKeys, upKey, initialPlayer, PLAYER_SPD]
      norm_num
  exact ⟨h, C1_collision_rollback upKey initialPlayer mainEnvItems mainDetectionItems (2 / 5) h⟩

/-- Witness of C2: a player standing at the spawn point of `main` for a frame of
1/60 s. -/
theorem C2_idle_step_witness :
    (∀ ei ∈ (mainEnvItems : List (EnvItem ℚ)), ei.blocking ≠ 0 →
        InBounds (initialPlayer : Character ℚ).position ei.rect (1 / 60) = false) ∧
      (UpdateCharacter { left := false, right := false, down := false, up := false }
          (initialPlayer : Character ℚ) mainEnvItems mainDetectionItems (1 / 60)).1.position
        = { x := 400, y := 280 } ∧
      (UpdateCharacter { left := false, right := false, down := false, up := false }
          (initialPlayer : Character ℚ) mainEnvItems mainDetectionItems (1 / 60)).1.lastPosition
        = { x := 400, y := 280 } ∧
      (UpdateCharacter { left := false, right := false, down := false, up := false }
          (initialPlayer : Character ℚ) mainEnvItems mainDetectionItems (1 / 60)).1.speed
        = 0 + 400 * (1 / 60) := by
  have h : ∀ ei ∈ (mainEnvItems : List (EnvItem ℚ)), ei.blocking ≠ 0 →
      InBounds (initialPlayer : Character ℚ).position ei.rect (1 / 60) = false := by
    simp [mainEnvItems, InBounds, initialPlayer]
    norm_num
  exact ⟨h, C2_idle_step initialPlayer mainEnvItems mainDetectionItems (1 / 60) h⟩

/-! ## C3 -/

/-- A larger tolerance only enlarges the set of points `InBounds` accepts. -/
theorem InBounds_mono (pos : Vector2 F) (rect : Rectangle F) (delta : F) (hd : 0 ≤ delta)
    (h : InBounds pos rect 0 = true) : InBounds pos rect delta = true := by
  simp only [InBounds, Bool.and_eq_true, decide_eq_true_eq, add_zero, sub_zero] at h ⊢
  obtain ⟨⟨⟨h1, h2⟩, h3⟩, h4⟩ := h
  refine ⟨⟨⟨?_, ?_⟩, ?_⟩, ?_⟩ <;> linarith

theorem collides_mono (envItems : List (EnvItem F)) (pos : Vector2 F) (delta : F)
    (hd : 0 ≤ delta) (h : collides envItems pos delta = false) :
    collides envItems pos 0 = false := by
  rw [collides_eq_false_iff] at h ⊢
  intro ei hei hb
  cases h0 : InBounds pos ei.rect 0 with
  | false => rfl
  | true =>
    have := InBounds_mono pos ei.rect delta hd h0
    rw [h ei hei hb] at this
    exact absurd this (by decide)

/-- One step keeps `position = lastPosition` outside every blocking rectangle. -/
theorem UpdateCharacter_keeps_clear (keys : Keys) (player : Character F)
    (envItems : List (EnvItem F)) (detectionItems : List (DetectArea F)) (delta : F)
    (hd : 0 ≤ delta) (hclear : collides envItems player.lastPosition 0 = false) :
    (UpdateCharacter keys player envItems detectionItems delta).1.position
        = (UpdateCharacter keys player envItems detectionItems delta).1.lastPosition ∧
      collides envItems
        (UpdateCharacter keys player envItems detectionItems delta).1.lastPosition 0 = false := by
  cases hc : collides envItems (applyKeys keys player delta).position delta with
  | true =>
    rw [UpdateCharacter_hit keys player envItems detectionItems delta hc]
    exact ⟨rfl, hclear⟩
  | false =>
    rw [UpdateCharacter_miss keys player envItems detectionItems delta hc]
    exact ⟨rfl, collides_mono _ _ _ hd hc⟩

/-- After one step `lastPosition` is the old one or the accepted moved position. -/
theorem UpdateCharacter_lastPosition (keys : Keys) (player : Character F)
    (envItems : List (EnvItem F)) (detectionItems : List (DetectArea F)) (delta : F) :
    (UpdateCharacter keys player envItems detectionItems delta).1.lastPosition
        = player.lastPosition ∨
      (collides envItems (applyKeys keys player delta).position delta = false ∧
        (UpdateCharacter keys player envItems detectionItems delta).1.lastPosition
          = (applyKeys keys player delta).position) := by
  cases hc : collides envItems (applyKeys keys player delta).position delta with
  | true =>
    rw [UpdateCharacter_hit keys player envItems detectionItems delta hc]
    exact Or.inl rfl
  | false =>
    rw [UpdateCharacter_miss keys player envItems detectionItems delta hc]
    exact Or.inr ⟨rfl, rfl⟩

/-- C3: never-colliding invariant.  Run any sequence of `UpdateCharacter` steps
(arbitrary keys, every frame time non-negative) on any level from a state whose
`position = lastPosition` is outside every blocking rectangle.  Then in the
state reached `position = lastPosition`, that point is not in bounds
(tolerance 0) of any blocking item, and it is either the starting point or the
moved position of one of the steps, which that step found in bounds of no
blocking item.  Every prefix of a run is a run, so this holds after every
step. -/
theorem C3_never_colliding (envItems : List (EnvItem F)) (detectionItems : List (DetectArea F))
    (frames : List (Keys × F)) (player : Character F)
    (hdelta : ∀ f ∈ frames, 0 ≤ f.2)
    (hpos : player.position = player.lastPosition)
    (hclear : ∀ ei ∈ envItems, ei.blocking ≠ 0 → InBounds player.lastPosition ei.rect 0 = false) :
    (runCharacter envItems detectionItems frames player).position
        = (runCharacter envItems detectionItems frames player).lastPosition ∧
      (∀ ei ∈ envItems, ei.blocking ≠ 0 →
        InBounds (runCharacter envItems detectionItems frames player).lastPosition ei.rect 0
          = false) ∧
      ((runCharacter envItems detectionItems frames player).lastPosition = player.lastPosition ∨
        ∃ (i : Nat) (keys : Keys) (delta : F), frames[i]? = some (keys, delta) ∧
          (∀ ei ∈ envItems, ei.blocking ≠ 0 →
            InBounds (applyKeys keys
              (runCharacter envItems detectionItems (frames.take i) player) delta).position
              ei.rect delta = false) ∧
          (runCharacter envItems detectionItems frames player).lastPosition
            = (applyKeys keys
                (runCharacter envItems detectionItems (frames.take i) player) delta).position) := by
  induction frames generalizing player with
  | nil => exact ⟨hpos, hclear, Or.inl rfl⟩
  | cons f rest ih =>
    obtain ⟨keys, delta⟩ := f
    have hd : 0 ≤ delta := hdelta (keys, delta) (List.mem_cons_self _ _)
    have hrest : ∀ f ∈ rest, 0 ≤ f.2 := fun f hf => hdelta f (List.mem_cons_of_mem _ hf)
    have hstep := UpdateCharacter_keeps_clear keys player envItems detectionItems delta hd
      ((collides_eq_false_iff _ _ _).2 hclear)
    obtain ⟨h1, h2, h3⟩ := ih (UpdateCharacter keys player envItems detectionItems delta).1
      hrest hstep.1 ((collides_eq_false_iff _ _ _).1 hstep.2)
    refine ⟨h1, h2, ?_⟩
    rcases h3 with h3 | ⟨i, k, d, hi, hacc, hlast⟩
    · rcases UpdateCharacter_lastPosition keys player envItems detectionItems delta with
        h0 | ⟨hc, h0⟩
      · exact Or.inl (h3.trans h0)
      · exact Or.inr ⟨0, keys, delta, by simp, (collides_eq_false_iff _ _ _).1 hc, h3.trans h0⟩
    · exact Or.inr ⟨i + 1, k, d, by simpa using hi, hacc, hlast⟩

/-- Witness of C3: on the level of `main`, from the spawn point, a rejected
move up followed by an accepted move right. -/
theorem C3_never_colliding_witness :
    (∀ f ∈ [(upKey, (2 / 5 : ℚ)), (rightKey, (1 / 10 : ℚ))], 0 ≤ f.2) ∧
      (initialPlayer : Character ℚ).position = (initialPlayer : Character ℚ).lastPosition ∧
      (∀ ei ∈ (mainEnvItems : List (EnvItem ℚ)), ei.blocking ≠ 0 →
        InBounds (initialPlayer : Character ℚ).lastPosition ei.rect 0 = false) ∧
      (runCharacter mainEnvItems mainDetectionItems
          [(upKey, (2 / 5 : ℚ)), (rightKey, (1 / 10 : ℚ))] initialPlayer).position
        = (runCharacter mainEnvItems mainDetectionItems
          [(upKey, (2 / 5 : ℚ)), (rightKey, (1 / 10 : ℚ))] initialPlayer).lastPosition ∧
      (∀ ei ∈ (mainEnvItems : List (EnvItem ℚ)), ei.blocking ≠ 0 →
        InBounds (runCharacter mainEnvItems mainDetectionItems
          [(upKey, (2 / 5 : ℚ)), (rightKey, (1 / 10 : ℚ))] initialPlayer).lastPosition
          ei.rect 0 = false) := by
  have h1 : ∀ f ∈ [(upKey, (2 / 5 : ℚ)), (rightKey, (1 / 10 : ℚ))], 0 ≤ f.2 := by
    intro f hf
    simp only [List.mem_cons, List.mem_singleton, List.not_mem_nil, or_false] at hf
    rcases hf with rfl | rfl <;> norm_num
  have h2 : (initialPlayer : Character ℚ).position
      = (initialPlayer : Character ℚ).lastPosition := rfl
  have h3 : ∀ ei ∈ (mainEnvItems : List (EnvItem ℚ)), ei.blocking ≠ 0 →
      InBounds (initialPlayer : Character ℚ).lastPosition ei.rect 0 = false := by
    simp [mainEnvItems, InBounds, initialPlayer]
    norm_num
  have h := C3_never_colliding mainEnvItems mainDetectionItems
    [(upKey, (2 / 5 : ℚ)), (rightKey, (1 / 10 : ℚ))] initialPlayer h1 h2 h3
  exact ⟨h1, h2, h3, h.1, h.2.1⟩

/-! ## C4, C5: SmoothFollow -/

/-- The target after `UpdateCameraCenterSmoothFollow` inside the dead zone. -/
theorem smoothFollow_target_near (L : Vector2 F → F) (camera : Camera2D F)
    (player : Character F) (envItems : List (EnvItem F)) (delta : F) (width height : Int)
    (h : L (Vector2Subtract player.position camera.target) ≤ 10) :
    (UpdateCameraCenterSmoothFollow L camera player envItems delta width height).target
      = camera.target := by
  simp only [UpdateCameraCenterSmoothFollow]
  rw [if_neg (not_lt.2 h)]

/-- The target after `UpdateCameraCenterSmoothFollow` outside the dead zone. -/
theorem smoothFollow_target_far (L : Vector2 F → F) (camera : Camera2D F)
    (player : Character F) (envItems : List (EnvItem F)) (delta : F) (width height : Int)
    (h : 10 < L (Vector2Subtract player.position camera.target)) :
    (UpdateCameraCenterSmoothFollow L camera player envItems delta width height).target
      = Vector2Add camera.target
          (Vector2Scale (Vector2Subtract player.position camera.target)
            (max 30 (0.8 * L (Vector2Subtract player.position camera.target)) * delta
              / L (Vector2Subtract player.position camera.target))) := by
  simp only [UpdateCameraCenterSmoothFollow]
  rw [if_pos h, max_comm]

/-- The pursuit speed is positive. -/
theorem smoothFollow_speed_pos (d : F) : 0 < max 30 (0.8 * d) :=
  lt_of_lt_of_le (by norm_num) (le_max_left _ _)

/-- A frame time of at most a third of a second never carries the target past
the character. -/
theorem smoothFollow_step_le (d delta : F) (hd : 10 < d) (h : delta ≤ 1 / 3) :
    max 30 (0.8 * d) * delta ≤ d := by
  rcases max_cases (30 : F) (0.8 * d) with ⟨h2, _⟩ | ⟨h2, _⟩
  · rw [h2]; nlinarith
  · rw [h2]; norm_num at *; nlinarith

/-- C4: SmoothFollow dead zone and step size.  With `d` the value
`Vector2Length` returns for `position - target`: if `d ≤ 10` the target is
unchanged; if `d > 10` the new target is
`target + (position - target) * (max(30, 0.8 * d) * delta / d)`.  When `d` is
the Euclidean length of `position - target`, the displacement of the target has
Euclidean length `max(30, 0.8 * d) * |delta|`. -/
theorem C4_smooth_follow (L : Vector2 F → F) (camera : Camera2D F) (player : Character F)
    (envItems : List (EnvItem F)) (delta : F) (width height : Int) :
    (L (Vector2Subtract player.position camera.target) ≤ 10 →
      (UpdateCameraCenterSmoothFollow L camera player envItems delta width height).target
        = camera.target) ∧
    (10 < L (Vector2Subtract player.position camera.target) →
      (UpdateCameraCenterSmoothFollow L camera player envItems delta width height).target
        = Vector2Add camera.target
            (Vector2Scale (Vector2Subtract player.position camera.target)
              (max 30 (0.8 * L (Vector2Subtract player.position camera.target)) * delta
                / L (Vector2Subtract player.position camera.target)))) ∧
    (10 < L (Vector2Subtract player.position camera.target) →
      IsLength (Vector2Subtract player.position camera.target)
        (L (Vector2Subtract player.position camera.target)) →
      IsLength
        (Vector2Subtract
          (UpdateCameraCenterSmoothFollow L camera player envItems delta width height).target
          camera.target)
        (max 30 (0.8 * L (Vector2Subtract player.position camera.target)) * |delta|)) := by
  refine ⟨smoothFollow_target_near L camera player envItems delta width height,
    smoothFollow_target_far L camera player envItems delta width height, ?_⟩
  intro hfar hlen
  rw [smoothFollow_target_far L camera player envItems delta width height hfar]
  generalize L (Vector2Subtract player.position camera.target) = d at hfar hlen ⊢
  have hd : d ≠ 0 := by
    intro h0
    rw [h0] at hfar
    norm_num at hfar
  obtain ⟨-, hsq⟩ := hlen
  refine ⟨mul_nonneg (smoothFollow_speed_pos d).le (abs_nonneg _), ?_⟩
  simp only [Vector2Subtract, Vector2Add, Vector2Scale] at hsq ⊢
  have habs : |delta| * |delta| = delta * delta := abs_mul_abs_self delta
  have key : ∀ (a b k : F), (a + b * (k / d) - a) * (a + b * (k / d) - a)
      = b * b * (k * k) / (d * d) := by
    intro a b k
    field_simp
    ring
  rw [key, key, ← add_div, ← add_mul, ← hsq, mul_comm (d * d), mul_div_assoc,
    div_self (mul_ne_zero hd hd), mul_one]
  symm
  calc max 30 (0.8 * d) * delta * (max 30 (0.8 * d) * delta)
      = max 30 (0.8 * d) * max 30 (0.8 * d) * (delta * delta) := by ring
    _ = max 30 (0.8 * d) * max 30 (0.8 * d) * (|delta| * |delta|) := by rw [habs]
    _ = max 30 (0.8 * d) * |delta| * (max 30 (0.8 * d) * |delta|) := by ring

/-- Witness of C4: the camera of `main` and a player 13 units away, one frame
of 1/60 s. -/
theorem C4_smooth_follow_witness :
    (UpdateCameraCenterSmoothFollow (fun _ => (13 : ℚ)) initialCamera (playerAt 412 285) []
        (1 / 60) 800 450).target
      = { x := 400 + 12 * (30 * (1 / 60) / 13), y := 280 + 5 * (30 * (1 / 60) / 13) } := by
  have h := (C4_smooth_follow (fun _ => (13 : ℚ)) initialCamera (playerAt 412 285) []
    (1 / 60) 800 450).2.1 (by norm_num)
  rw [h]
  have hmax : max (30 : ℚ) (0.8 * 13) = 30 := max_eq_left (by norm_num)
  simp only [hmax, Vector2Add, Vector2Scale, Vector2Subtract, initialCamera, playerAt]
  norm_num

/-- Counterexample to C5: the camera of `main`, a player 13 units away
(`position - target = (12, 5)`) and a frame of half a second.  The speed is 30,
the step 15 exceeds the distance 13, and the new target is past the player. -/
theorem C5_counterexample :
    IsLength (Vector2Subtract (playerAt (412 : ℚ) 285).position
        (initialCamera : Camera2D ℚ).target) 13 ∧
      (0 : ℚ) ≤ 1 / 2 ∧ (10 : ℚ) < 13 ∧
      ¬ ∃ t : ℚ, 0 ≤ t ∧ t ≤ 1 ∧
        (UpdateCameraCenterSmoothFollow (fun _ => (13 : ℚ)) initialCamera (playerAt 412 285) []
            (1 / 2) 800 450).target
          = Vector2Add (initialCamera : Camera2D ℚ).target
              (Vector2Scale (Vector2Subtract (playerAt (412 : ℚ) 285).position
                (initialCamera : Camera2D ℚ).target) t) := by
  refine ⟨?_, by norm_num, by norm_num, ?_⟩
  · simp only [IsLength, Vector2Subtract, initialCamera, playerAt]
    norm_num
  · rintro ⟨t, -, ht1, heq⟩
    rw [smoothFollow_target_far _ _ _ _ _ _ _ (by norm_num)] at heq
    have hmax : max (30 : ℚ) (0.8 * 13) = 30 := max_eq_left (by norm_num)
    simp only [hmax, Vector2Add, Vector2Scale, Vector2Subtract, initialCamera, playerAt,
      Vector2.mk.injEq] at heq
    linarith [heq.1]

/-- C5 (amended): SmoothFollow and overshoot.  For `delta ≥ 0` and a Euclidean
distance `d > 10` between target and character, the new target lies on the
segment from the old target to the character exactly when
`max(30, 0.8 * d) * delta ≤ d`; this holds in particular whenever
`delta ≤ 1/3`. -/
theorem C5_smooth_follow_segment (L : Vector2 F → F) (camera : Camera2D F)
    (player : Character F) (envItems : List (EnvItem F)) (delta : F) (width height : Int)
    (hdelta : 0 ≤ delta)
    (hfar : 10 < L (Vector2Subtract player.position camera.target))
    (hlen : IsLength (Vector2Subtract player.position camera.target)
      (L (Vector2Subtract player.position camera.target))) :
    ((∃ t : F, 0 ≤ t ∧ t ≤ 1 ∧
        (UpdateCameraCenterSmoothFollow L camera player envItems delta width height).target
          = Vector2Add camera.target
              (Vector2Scale (Vector2Subtract player.position camera.target) t)) ↔
      max 30 (0.8 * L (Vector2Subtract player.position camera.target)) * delta
        ≤ L (Vector2Subtract player.position camera.target)) ∧
    (delta ≤ 1 / 3 →
      ∃ t : F, 0 ≤ t ∧ t ≤ 1 ∧
        (UpdateCameraCenterSmoothFollow L camera player envItems delta width height).target
          = Vector2Add camera.target
              (Vector2Scale (Vector2Subtract player.position camera.target) t)) := by
  rw [smoothFollow_target_far L camera player envItems delta width height hfar]
  generalize L (Vector2Subtract player.position camera.target) = d at hfar hlen ⊢
  have hd : 0 < d := lt_trans (by norm_num) hfar
  have hs := smoothFollow_speed_pos d
  have hback : max 30 (0.8 * d) * delta ≤ d →
      ∃ t : F, 0 ≤ t ∧ t ≤ 1 ∧
        Vector2Add camera.target
            (Vector2Scale (Vector2Subtract player.position camera.target)
              (max 30 (0.8 * d) * delta / d))
          = Vector2Add camera.target
              (Vector2Scale (Vector2Subtract player.position camera.target) t) :=
    fun h => ⟨max 30 (0.8 * d) * delta / d,
      div_nonneg (mul_nonneg hs.le hdelta) hd.le, (div_le_one hd).2 h, rfl⟩
  refine ⟨⟨?_, hback⟩, fun h => hback (smoothFollow_step_le d delta hfar h)⟩
  rintro ⟨t, -, ht1, heq⟩
  obtain ⟨-, hsq⟩ := hlen
  simp only [Vector2Add, Vector2Scale, Vector2Subtract, Vector2.mk.injEq] at heq hsq
  obtain ⟨hx, hy⟩ := heq
  have hx0 : (player.position.x - camera.target.x) * (max 30 (0.8 * d) * delta / d - t) = 0 := by
    linear_combination hx
  have hy0 : (player.position.y - camera.target.y) * (max 30 (0.8 * d) * delta / d - t) = 0 := by
    linear_combination hy
  have ht : max 30 (0.8 * d) * delta / d = t := by
    by_contra hne
    have hne0 : max 30 (0.8 * d) * delta / d - t ≠ 0 := sub_ne_zero.2 hne
    have hx1 := (mul_eq_zero.1 hx0).resolve_right hne0
    have hy1 := (mul_eq_zero.1 hy0).resolve_right hne0
    rw [hx1, hy1] at hsq
    nlinarith
  rw [← ht] at ht1
  exact (div_le_one hd).1 ht1

/-- Witness of C5 (amended): the camera of `main`, a player 13 units away and
a frame of 1/60 s. -/
theorem C5_smooth_follow_segment_witness :
    ∃ t : ℚ, 0 ≤ t ∧ t ≤ 1 ∧
      (UpdateCameraCenterSmoothFollow (fun _ => (13 : ℚ)) initialCamera (playerAt 412 285) []
          (1 / 60) 800 450).target
        = Vector2Add (initialCamera : Camera2D ℚ).target
            (Vector2Scale (Vector2Subtract (playerAt (412 : ℚ) 285).position
              (initialCamera : Camera2D ℚ).target) t) :=
  (C5_smooth_follow_segment (fun _ => (13 : ℚ)) initialCamera (playerAt 412 285) []
    (1 / 60) 800 450 (by norm_num) (by norm_num)
    (by simp only [IsLength, Vector2Subtract, initialCamera, playerAt]; norm_num)).2
    (by norm_num)

/-! ## C6: Center -/

/-- C6: Center strategy.  After `UpdateCameraCenter` the target is exactly the
character's position and the offset is exactly `(width / 2, height / 2)`, the
centre of the viewport. -/
theorem C6_center (camera : Camera2D F) (player : Character F) (envItems : List (EnvItem F))
    (delta : F) (width height : Int) :
    (UpdateCameraCenter camera player envItems delta width height).target = player.position ∧
      (UpdateCameraCenter camera player envItems delta width height).offset
        = { x := (width : F) / 2, y := (height : F) / 2 } :=
  ⟨rfl, rfl⟩

/-! ## C7: CenterInsideMap -/

/-- For an even C `int`, `width / 2` is the exact half. -/
theorem tdiv_two_cast (n : Int) (h : 2 ∣ n) : ((Int.tdiv n 2 : Int) : F) = (n : F) / 2 := by
  obtain ⟨k, rfl⟩ := h
  rw [Int.mul_tdiv_cancel_left k (by decide)]
  push_cast
  ring

/-- The target after `UpdateCameraCenterInsideMap` is the player's position. -/
theorem centerInsideMap_target (camera : Camera2D F) (player : Character F)
    (envItems : List (EnvItem F)) (delta : F) (width height : Int) :
    (UpdateCameraCenterInsideMap camera player envItems delta width height).target
      = player.position := by
  simp only [UpdateCameraCenterInsideMap]
  split_ifs <;> rfl

/-- The zoom is untouched by `UpdateCameraCenterInsideMap`. -/
theorem centerInsideMap_zoom (camera : Camera2D F) (player : Character F)
    (envItems : List (EnvItem F)) (delta : F) (width height : Int) :
    (UpdateCameraCenterInsideMap camera player envItems delta width height).zoom
      = camera.zoom := by
  simp only [UpdateCameraCenterInsideMap]
  split_ifs <;> rfl

/-- The horizontal offset after `UpdateCameraCenterInsideMap`: the left-edge
correction, applied last, wins over the right-edge one. -/
theorem centerInsideMap_offset_x (camera : Camera2D F) (player : Character F)
    (envItems : List (EnvItem F)) (delta : F) (width height : Int) :
    (UpdateCameraCenterInsideMap camera player envItems delta width height).offset.x
      = if 0 < ((mapBounds envItems).minX - player.position.x) * camera.zoom + (width : F) / 2
        then ((Int.tdiv width 2 : Int) : F)
          - (((mapBounds envItems).minX - player.position.x) * camera.zoom + (width : F) / 2)
        else if ((mapBounds envItems).maxX - player.position.x) * camera.zoom + (width : F) / 2
            < (width : F)
        then (width : F)
          - (((mapBounds envItems).maxX - player.position.x) * camera.zoom + (width : F) / 2
              - ((Int.tdiv width 2 : Int) : F))
        else (width : F) / 2 := by
  simp only [UpdateCameraCenterInsideMap, GetWorldToScreen2D, gt_iff_lt]
  split_ifs <;> rfl

/-- The vertical offset after `UpdateCameraCenterInsideMap`: the top-edge
correction, applied last, wins over the bottom-edge one. -/
theorem centerInsideMap_offset_y (camera : Camera2D F) (player : Character F)
    (envItems : List (EnvItem F)) (delta : F) (width height : Int) :
    (UpdateCameraCenterInsideMap camera player envItems delta width height).offset.y
      = if 0 < ((mapBounds envItems).minY - player.position.y) * camera.zoom + (height : F) / 2
        then ((Int.tdiv height 2 : Int) : F)
          - (((mapBounds envItems).minY - player.position.y) * camera.zoom + (height : F) / 2)
        else if ((mapBounds envItems).maxY - player.position.y) * camera.zoom + (height : F) / 2
            < (height : F)
        then (height : F)
          - (((mapBounds envItems).maxY - player.position.y) * camera.zoom + (height : F) / 2
              - ((Int.tdiv height 2 : Int) : F))
        else (height : F) / 2 := by
  simp only [UpdateCameraCenterInsideMap, GetWorldToScreen2D, gt_iff_lt]
  split_ifs <;> rfl

/-- CenterInsideMap clamps as intended when both viewport sizes are even: if
the box the loop computed, scaled by the zoom, is at least as large as the
viewport, then under the updated camera its min corner projects to at most
`(0, 0)` and its max corner to at least `(width, height)`. -/
theorem centerInsideMap_clamps_even (camera : Camera2D F) (player : Character F)
    (envItems : List (EnvItem F)) (delta : F) (width height : Int)
    (hw : 2 ∣ width) (hh : 2 ∣ height)
    (hx : (width : F) ≤ ((mapBounds envItems).maxX - (mapBounds envItems).minX) * camera.zoom)
    (hy : (height : F) ≤ ((mapBounds envItems).maxY - (mapBounds envItems).minY) * camera.zoom) :
    (GetWorldToScreen2D { x := (mapBounds envItems).minX, y := (mapBounds envItems).minY }
        (UpdateCameraCenterInsideMap camera player envItems delta width height)).x ≤ 0 ∧
      (GetWorldToScreen2D { x := (mapBounds envItems).minX, y := (mapBounds envItems).minY }
        (UpdateCameraCenterInsideMap camera player envItems delta width height)).y ≤ 0 ∧
      (width : F) ≤
        (GetWorldToScreen2D { x := (mapBounds envItems).maxX, y := (mapBounds envItems).maxY }
          (UpdateCameraCenterInsideMap camera player envItems delta width height)).x ∧
      (height : F) ≤
        (GetWorldToScreen2D { x := (mapBounds envItems).maxX, y := (mapBounds envItems).maxY }
          (UpdateCameraCenterInsideMap camera player envItems delta width height)).y := by
  simp only [GetWorldToScreen2D, centerInsideMap_target, centerInsideMap_zoom,
    centerInsideMap_offset_x, centerInsideMap_offset_y, tdiv_two_cast width hw,
    tdiv_two_cast height hh]
  generalize mapBounds envItems = b at hx hy ⊢
  refine ⟨?_, ?_, ?_, ?_⟩ <;> split_ifs <;> linarith

/-- C7 at a failing input: the level of `main`, zoom 2, a viewport 801 wide
and 450 high, the player at `(900, 280)`.  The computed box `[0, 1000] x
[0, 420]` scaled by 2 covers the viewport, yet under the updated camera its max
corner projects to `x = 800.5 < 801`: the correction subtracts the integer
quotient `801 / 2 = 400` where the offset had been set to `801 / 2.0 = 400.5`. -/
theorem C7_odd_width_failure :
    mapBounds (mainEnvItems : List (EnvItem ℚ))
        = { minX := 0, minY := 0, maxX := 1000, maxY := 420 } ∧
      ((801 : Int) : ℚ) ≤ (1000 - 0) * 2 ∧ ((450 : Int) : ℚ) ≤ (420 - 0) * 2 ∧
      (GetWorldToScreen2D ({ x := 1000, y := 420 } : Vector2 ℚ)
        (UpdateCameraCenterInsideMap (cameraWithZoom (2 : ℚ))
          (playerAt 900 280) mainEnvItems (1 / 60) 801 450)).x = 1601 / 2 ∧
      (GetWorldToScreen2D ({ x := 1000, y := 420 } : Vector2 ℚ)
        (UpdateCameraCenterInsideMap (cameraWithZoom (2 : ℚ))
          (playerAt 900 280) mainEnvItems (1 / 60) 801 450)).x < ((801 : Int) : ℚ) := by
  have hb : mapBounds (mainEnvItems : List (EnvItem ℚ))
      = { minX := 0, minY := 0, maxX := 1000, maxY := 420 } := by
    simp only [mapBounds, mainEnvItems, scanBounds]
    norm_num
  have h801 : Int.tdiv 801 2 = 400 := by decide
  have hval : (GetWorldToScreen2D ({ x := 1000, y := 420 } : Vector2 ℚ)
      (UpdateCameraCenterInsideMap (cameraWithZoom (2 : ℚ))
        (playerAt 900 280) mainEnvItems (1 / 60) 801 450)).x = 1601 / 2 := by
    simp only [GetWorldToScreen2D, centerInsideMap_target, centerInsideMap_zoom,
      centerInsideMap_offset_x, hb, h801, playerAt, cameraWithZoom]
    norm_num
  refine ⟨hb, by norm_num, by norm_num, hval, ?_⟩
  rw [hval]
  norm_num

/-! ## C8: CharacterBoundsPush -/

/-- The offset after `UpdateCameraCharacterBoundsPush` is the dead box's
top-left screen corner. -/
theorem boundsPush_offset (camera : Camera2D F) (player : Character F)
    (envItems : List (EnvItem F)) (delta : F) (width height : Int) :
    (UpdateCameraCharacterBoundsPush camera player envItems delta width height).offset
      = bboxScreenMin width height := by
  simp only [UpdateCameraCharacterBoundsPush, bboxScreenMin]
  split_ifs <;> rfl

/-- The zoom is untouched by `UpdateCameraCharacterBoundsPush`. -/
theorem boundsPush_zoom (camera : Camera2D F) (player : Character F)
    (envItems : List (EnvItem F)) (delta : F) (width height : Int) :
    (UpdateCameraCharacterBoundsPush camera player envItems delta width height).zoom
      = camera.zoom := by
  simp only [UpdateCameraCharacterBoundsPush]
  split_ifs <;> rfl

/-- The horizontal target after `UpdateCameraCharacterBoundsPush`; the test
against the box maximum comes last and wins. -/
theorem boundsPush_target_x (camera : Camera2D F) (player : Character F)
    (envItems : List (EnvItem F)) (delta : F) (width height : Int) :
    (UpdateCameraCharacterBoundsPush camera player envItems delta width height).target.x
      = if (GetScreenToWorld2D (bboxScreenMax width height) camera).x < player.position.x
        then (GetScreenToWorld2D (bboxScreenMin width height) camera).x
          + (player.position.x - (GetScreenToWorld2D (bboxScreenMax width height) camera).x)
        else if player.position.x < (GetScreenToWorld2D (bboxScreenMin width height) camera).x
        then player.position.x
        else camera.target.x := by
  simp only [UpdateCameraCharacterBoundsPush, bboxScreenMin, bboxScreenMax, gt_iff_lt]
  split_ifs <;> rfl

/-- The vertical target after `UpdateCameraCharacterBoundsPush`; the test
against the box maximum comes last and wins. -/
theorem boundsPush_target_y (camera : Camera2D F) (player : Character F)
    (envItems : List (EnvItem F)) (delta : F) (width height : Int) :
    (UpdateCameraCharacterBoundsPush camera player envItems delta width height).target.y
      = if (GetScreenToWorld2D (bboxScreenMax width height) camera).y < player.position.y
        then (GetScreenToWorld2D (bboxScreenMin width height) camera).y
          + (player.position.y - (GetScreenToWorld2D (bboxScreenMax width height) camera).y)
        else if player.position.y < (GetScreenToWorld2D (bboxScreenMin width height) camera).y
        then player.position.y
        else camera.target.y := by
  simp only [UpdateCameraCharacterBoundsPush, bboxScreenMin, bboxScreenMax, gt_iff_lt]
  split_ifs <;> rfl

/-- With a positive zoom and a non-negative size the box minimum is not above
the box maximum. -/
theorem bbox_world_le (camera : Camera2D F) (width height : Int) (hz : 0 < camera.zoom)
    (hw : 0 ≤ width) (hh : 0 ≤ height) :
    (GetScreenToWorld2D (bboxScreenMin width height) camera).x
        ≤ (GetScreenToWorld2D (bboxScreenMax width height) camera).x ∧
      (GetScreenToWorld2D (bboxScreenMin width height) camera).y
        ≤ (GetScreenToWorld2D (bboxScreenMax width height) camera).y := by
  have hw1 : (0 : F) ≤ (width : F) := by exact_mod_cast hw
  have hh1 : (0 : F) ≤ (height : F) := by exact_mod_cast hh
  simp only [GetScreenToWorld2D, bboxScreenMin, bboxScreenMax]
  constructor
  · have : ((1 - 0.2) * 0.5 * (width : F) - camera.offset.x) / camera.zoom
        ≤ ((1 + 0.2) * 0.5 * (width : F) - camera.offset.x) / camera.zoom :=
      div_le_div_of_nonneg_right (by norm_num; nlinarith) hz.le
    linarith
  · have : ((1 - 0.2) * 0.5 * (height : F) - camera.offset.y) / camera.zoom
        ≤ ((1 + 0.2) * 0.5 * (height : F) - camera.offset.y) / camera.zoom :=
      div_le_div_of_nonneg_right (by norm_num; nlinarith) hz.le
    linarith

/-- When the offset already is the box corner, the box minimum in world space
is the camera target. -/
theorem bbox_world_min_x (camera : Camera2D F) (width height : Int)
    (h : camera.offset.x = (bboxScreenMin width height : Vector2 F).x) :
    (GetScreenToWorld2D (bboxScreenMin width height) camera).x = camera.target.x := by
  simp only [GetScreenToWorld2D, h, sub_self, zero_div, zero_add]

/-- The same on the vertical axis. -/
theorem bbox_world_min_y (camera : Camera2D F) (width height : Int)
    (h : camera.offset.y = (bboxScreenMin width height : Vector2 F).y) :
    (GetScreenToWorld2D (bboxScreenMin width height) camera).y = camera.target.y := by
  simp only [GetScreenToWorld2D, h, sub_self, zero_div, zero_add]

/-- Counterexample to C8: the camera of `main`, whose offset `(400, 225)` is
the viewport centre and not the box corner `(320, 180)`, and a player at
`x = 300`, 20 units left of the box minimum 320.  The target moves from 400 to
300, by -100 and not by the overflow -20. -/
theorem C8_counterexample :
    (0 : ℚ) < (initialCamera : Camera2D ℚ).zoom ∧
      (GetScreenToWorld2D (bboxScreenMin 800 450) (initialCamera : Camera2D ℚ)).x = 320 ∧
      (playerAt (300 : ℚ) 280).position.x
        < (GetScreenToWorld2D (bboxScreenMin 800 450) (initialCamera : Camera2D ℚ)).x ∧
      (UpdateCameraCharacterBoundsPush (initialCamera : Camera2D ℚ) (playerAt 300 280)
          mainEnvItems (1 / 60) 800 450).target.x - (initialCamera : Camera2D ℚ).target.x
        = -100 ∧
      (UpdateCameraCharacterBoundsPush (initialCamera : Camera2D ℚ) (playerAt 300 280)
          mainEnvItems (1 / 60) 800 450).target.x - (initialCamera : Camera2D ℚ).target.x
        ≠ (playerAt (300 : ℚ) 280).position.x
          - (GetScreenToWorld2D (bboxScreenMin 800 450) (initialCamera : Camera2D ℚ)).x := by
  have hmin : (GetScreenToWorld2D (bboxScreenMin 800 450) (initialCamera : Camera2D ℚ)).x
      = 320 := by
    simp only [GetScreenToWorld2D, bboxScreenMin, initialCamera, screenWidth]
    norm_num
  have hmax : (GetScreenToWorld2D (bboxScreenMax 800 450) (initialCamera : Camera2D ℚ)).x
      = 480 := by
    simp only [GetScreenToWorld2D, bboxScreenMax, initialCamera, screenWidth]
    norm_num
  have hval : (UpdateCameraCharacterBoundsPush (initialCamera : Camera2D ℚ) (playerAt 300 280)
      mainEnvItems (1 / 60) 800 450).target.x - (initialCamera : Camera2D ℚ).target.x
        = -100 := by
    rw [boundsPush_target_x, hmin, hmax]
    simp only [playerAt, initialCamera]
    norm_num
  refine ⟨by simp [initialCamera], hmin, ?_, hval, ?_⟩
  · rw [hmin]
    simp only [playerAt]
    norm_num
  · rw [hval, hmin]
    simp only [playerAt]
    norm_num

/-- C8 (amended): CharacterBoundsPush pushes by the overflow once the offset is
the box corner.  For a camera with zoom > 0 and a viewport of non-negative
size, on each axis, with the box corners taken under the camera on entry: if
the character is within the box the target is unchanged (whatever the offset);
if the camera's offset on that axis already equals the box's top-left screen
corner `(1 - 0.2) * 0.5 * size`, then a character below the box minimum moves
the target by exactly `position - boxMin` and a character above the box maximum
moves it by exactly `position - boxMax`. -/
theorem C8_bounds_push (camera : Camera2D F) (player : Character F)
    (envItems : List (EnvItem F)) (delta : F) (width height : Int)
    (hz : 0 < camera.zoom) (hw : 0 ≤ width) (hh : 0 ≤ height) :
    ((GetScreenToWorld2D (bboxScreenMin width height) camera).x ≤ player.position.x →
      player.position.x ≤ (GetScreenToWorld2D (bboxScreenMax width height) camera).x →
      (UpdateCameraCharacterBoundsPush camera player envItems delta width height).target.x
        = camera.target.x) ∧
    ((GetScreenToWorld2D (bboxScreenMin width height) camera).y ≤ player.position.y →
      player.position.y ≤ (GetScreenToWorld2D (bboxScreenMax width height) camera).y →
      (UpdateCameraCharacterBoundsPush camera player envItems delta width height).target.y
        = camera.target.y) ∧
    (camera.offset.x = (bboxScreenMin width height : Vector2 F).x →
      (player.position.x < (GetScreenToWorld2D (bboxScreenMin width height) camera).x →
        (UpdateCameraCharacterBoundsPush camera player envItems delta width height).target.x
            - camera.target.x
          = player.position.x - (GetScreenToWorld2D (bboxScreenMin width height) camera).x) ∧
      ((GetScreenToWorld2D (bboxScreenMax width height) camera).x < player.position.x →
        (UpdateCameraCharacterBoundsPush camera player envItems delta width height).target.x
            - camera.target.x
          = player.position.x - (GetScreenToWorld2D (bboxScreenMax width height) camera).x)) ∧
    (camera.offset.y = (bboxScreenMin width height : Vector2 F).y →
      (player.position.y < (GetScreenToWorld2D (bboxScreenMin width height) camera).y →
        (UpdateCameraCharacterBoundsPush camera player envItems delta width height).target.y
            - camera.target.y
          = player.position.y - (GetScreenToWorld2D (bboxScreenMin width height) camera).y) ∧
      ((GetScreenToWorld2D (bboxScreenMax width height) camera).y < player.position.y →
        (UpdateCameraCharacterBoundsPush camera player envItems delta width height).target.y
            - camera.target.y
          = player.position.y - (GetScreenToWorld2D (bboxScreenMax width height) camera).y)) := by
  obtain ⟨hlex, hley⟩ := bbox_world_le camera width height hz hw hh
  rw [boundsPush_target_x, boundsPush_target_y]
  refine ⟨?_, ?_, ?_, ?_⟩
  · intro h1 h2
    rw [if_neg (not_lt.2 h2), if_neg (not_lt.2 h1)]
  · intro h1 h2
    rw [if_neg (not_lt.2 h2), if_neg (not_lt.2 h1)]
  · intro hoff
    have hmin := bbox_world_min_x camera width height hoff
    refine ⟨fun h1 => ?_, fun h2 => ?_⟩
    · rw [if_neg (not_lt.2 (le_trans h1.le hlex)), if_pos h1, hmin]
    · rw [if_pos h2, hmin]
      ring
  · intro hoff
    have hmin := bbox_world_min_y camera width height hoff
    refine ⟨fun h1 => ?_, fun h2 => ?_⟩
    · rw [if_neg (not_lt.2 (le_trans h1.le hley)), if_pos h1, hmin]
    · rw [if_pos h2, hmin]
      ring

/-- Witness of C8 (amended): the anchored camera of `main` and a player 100
units left of the box minimum. -/
theorem C8_bounds_push_witness :
    (0 : ℚ) < (anchoredCamera : Camera2D ℚ).zoom ∧ (0 : Int) ≤ 800 ∧ (0 : Int) ≤ 450 ∧
      (anchoredCamera : Camera2D ℚ).offset.x = (bboxScreenMin 800 450 : Vector2 ℚ).x ∧
      (playerAt (300 : ℚ) 280).position.x
        < (GetScreenToWorld2D (bboxScreenMin 800 450) (anchoredCamera : Camera2D ℚ)).x ∧
      (UpdateCameraCharacterBoundsPush (anchoredCamera : Camera2D ℚ) (playerAt 300 280)
          mainEnvItems (1 / 60) 800 450).target.x - (anchoredCamera : Camera2D ℚ).target.x
        = (playerAt (300 : ℚ) 280).position.x
          - (GetScreenToWorld2D (bboxScreenMin 800 450) (anchoredCamera : Camera2D ℚ)).x := by
  have hz : (0 : ℚ) < (anchoredCamera : Camera2D ℚ).zoom := by simp [anchoredCamera]
  have hoff : (anchoredCamera : Camera2D ℚ).offset.x = (bboxScreenMin 800 450 : Vector2 ℚ).x :=
    rfl
  have hlt : (playerAt (300 : ℚ) 280).position.x
      < (GetScreenToWorld2D (bboxScreenMin 800 450) (anchoredCamera : Camera2D ℚ)).x := by
    rw [bbox_world_min_x _ _ _ hoff]
    simp only [playerAt, anchoredCamera]
    norm_num
  exact ⟨hz, by decide, by decide, hoff, hlt,
    ((C8_bounds_push (anchoredCamera : Camera2D ℚ) (playerAt 300 280) mainEnvItems (1 / 60)
      800 450 hz (by decide) (by decide)).2.2.1 hoff).1 hlt⟩

/-! ## C9: EvenOutOnLanding -/

/-- Counterexample to C9: the flag is set, the camera of `main` has
`target.y = 280`, the stored target Y is 287 and the frame lasts 1/100 s.  The
step `700 / 100 = 7` lands exactly on the stored target Y, and the flag is
still set after the call. -/
theorem C9_counterexample :
    (0 : ℚ) ≤ 1 / 100 ∧
      (UpdateCameraEvenOutOnLanding { eveningOut := 1, evenOutTarget := (287 : ℚ) }
          initialCamera (playerAt 400 287) mainEnvItems (1 / 100) 800 450).2.target.y = 287 ∧
      (UpdateCameraEvenOutOnLanding { eveningOut := 1, evenOutTarget := (287 : ℚ) }
          initialCamera (playerAt 400 287) mainEnvItems (1 / 100) 800 450).1.eveningOut = 1 := by
  refine ⟨by norm_num, ?_, ?_⟩
  · simp only [UpdateCameraEvenOutOnLanding, initialCamera, playerAt]
    norm_num
  · simp only [UpdateCameraEvenOutOnLanding, initialCamera, playerAt]
    norm_num

/-- C9 (amended): EvenOutOnLanding while evening out.  With the flag set and
`delta ≥ 0`, one call leaves the stored target Y as it is and moves
`camera.target.y` toward it by at most `700 * delta` without passing it.  If
`700 * delta` is strictly more than the remaining distance, `camera.target.y`
becomes the stored target Y and the flag is cleared by that call; otherwise
(also when the step lands exactly on the stored target Y) `camera.target.y`
moves by exactly `700 * delta` and the flag keeps its value. -/
theorem C9_even_out_step (st : EvenOutState F) (camera : Camera2D F) (player : Character F)
    (envItems : List (EnvItem F)) (delta : F) (width height : Int)
    (hflag : st.eveningOut ≠ 0) (hdelta : 0 ≤ delta) :
    (UpdateCameraEvenOutOnLanding st camera player envItems delta width height).1.evenOutTarget
        = st.evenOutTarget ∧
      min camera.target.y st.evenOutTarget
        ≤ (UpdateCameraEvenOutOnLanding st camera player envItems delta width height).2.target.y ∧
      (UpdateCameraEvenOutOnLanding st camera player envItems delta width height).2.target.y
        ≤ max camera.target.y st.evenOutTarget ∧
      |(UpdateCameraEvenOutOnLanding st camera player envItems delta width height).2.target.y
          - st.evenOutTarget| ≤ |camera.target.y - st.evenOutTarget| ∧
      |(UpdateCameraEvenOutOnLanding st camera player envItems delta width height).2.target.y
          - camera.target.y| ≤ 700 * delta ∧
      (|st.evenOutTarget - camera.target.y| < 700 * delta →
        (UpdateCameraEvenOutOnLanding st camera player envItems delta width height).2.target.y
            = st.evenOutTarget ∧
          (UpdateCameraEvenOutOnLanding st camera player envItems delta width height).1.eveningOut
            = 0) ∧
      (700 * delta ≤ |st.evenOutTarget - camera.target.y| →
        |(UpdateCameraEvenOutOnLanding st camera player envItems delta width height).2.target.y
            - camera.target.y| = 700 * delta ∧
          (UpdateCameraEvenOutOnLanding st camera player envItems delta width height).1.eveningOut
            = st.eveningOut) := by
  have hflag1 : (st.eveningOut != 0) = true := by simpa using hflag
  simp only [UpdateCameraEvenOutOnLanding, hflag1, if_true]
  by_cases h1 : st.evenOutTarget > camera.target.y
  · rw [if_pos h1]
    have habs : |st.evenOutTarget - camera.target.y| = st.evenOutTarget - camera.target.y :=
      abs_of_pos (sub_pos.2 h1)
    have hmin : min camera.target.y st.evenOutTarget = camera.target.y := min_eq_left h1.le
    have hmax : max camera.target.y st.evenOutTarget = st.evenOutTarget := max_eq_right h1.le
    have habs2 : |camera.target.y - st.evenOutTarget| = st.evenOutTarget - camera.target.y := by
      rw [abs_sub_comm, habs]
    rw [habs, hmin, hmax, habs2]
    by_cases h2 : camera.target.y + 700 * delta > st.evenOutTarget
    · rw [if_pos h2]
      simp only [sub_self, abs_zero]
      rw [abs_of_pos (sub_pos.2 h1)]
      refine ⟨trivial, h1.le, le_rfl, by linarith, by linarith, fun _ => ⟨trivial, trivial⟩,
        fun h => ?_⟩
      exact absurd h (not_le.2 (by linarith))
    · rw [if_neg h2]
      have h2le := not_lt.1 h2
      simp only [add_sub_cancel_left, abs_of_nonneg (mul_nonneg (by norm_num : (0 : F) ≤ 700) hdelta)]
      have h3 : |camera.target.y + 700 * delta - st.evenOutTarget|
          = st.evenOutTarget - (camera.target.y + 700 * delta) := by
        rw [abs_sub_comm]
        exact abs_of_nonneg (sub_nonneg.2 h2le)
      rw [h3]
      refine ⟨trivial, by linarith, h2le, by linarith, le_rfl, fun h => ?_,
        fun _ => ⟨trivial, trivial⟩⟩
      exact absurd h (not_lt.2 (by linarith))
  · rw [if_neg h1]
    have h1le := not_lt.1 h1
    have habs : |st.evenOutTarget - camera.target.y| = camera.target.y - st.evenOutTarget := by
      rw [abs_sub_comm]
      exact abs_of_nonneg (sub_nonneg.2 h1le)
    have hmin : min camera.target.y st.evenOutTarget = st.evenOutTarget := min_eq_right h1le
    have hmax : max camera.target.y st.evenOutTarget = camera.target.y := max_eq_left h1le
    have habs2 : |camera.target.y - st.evenOutTarget| = camera.target.y - st.evenOutTarget :=
      abs_of_nonneg (sub_nonneg.2 h1le)
    rw [habs, hmin, hmax, habs2]
    by_cases h2 : camera.target.y - 700 * delta < st.evenOutTarget
    · rw [if_pos h2]
      simp only [sub_self, abs_zero]
      rw [abs_sub_comm, abs_of_nonneg (sub_nonneg.2 h1le)]
      refine ⟨trivial, le_rfl, h1le, by linarith, by linarith, fun _ => ⟨trivial, trivial⟩,
        fun h => ?_⟩
      exact absurd h (not_le.2 (by linarith))
    · rw [if_neg h2]
      have h2le := not_lt.1 h2
      have h3 : |camera.target.y - 700 * delta - st.evenOutTarget|
          = camera.target.y - 700 * delta - st.evenOutTarget :=
        abs_of_nonneg (sub_nonneg.2 h2le)
      have h4 : |camera.target.y - 700 * delta - camera.target.y| = 700 * delta := by
        rw [abs_sub_comm]
        have : camera.target.y - (camera.target.y - 700 * delta) = 700 * delta := by ring
        rw [this]
        exact abs_of_nonneg (mul_nonneg (by norm_num) hdelta)
      rw [h3, h4]
      refine ⟨rfl, h2le, by linarith, by linarith, le_rfl, fun h => ?_,
        fun _ => ⟨rfl, rfl⟩⟩
      exact absurd h (not_lt.2 (by linarith))

/-- Witness of C9 (amended): the flag set, the stored target Y 700 units below
the camera of `main`, one frame of 1/60 s. -/
theorem C9_even_out_step_witness :
    ({ eveningOut := 1, evenOutTarget := 980 } : EvenOutState ℚ).eveningOut ≠ 0 ∧
      (0 : ℚ) ≤ 1 / 60 ∧
      |(UpdateCameraEvenOutOnLanding { eveningOut := 1, evenOutTarget := (980 : ℚ) }
          initialCamera (playerAt 400 980) mainEnvItems (1 / 60) 800 450).2.target.y
        - (initialCamera : Camera2D ℚ).target.y| ≤ 700 * (1 / 60) :=
  ⟨by decide, by norm_num,
    (C9_even_out_step { eveningOut := 1, evenOutTarget := (980 : ℚ) } initialCamera
      (playerAt 400 980) mainEnvItems (1 / 60) 800 450 (by decide) (by norm_num)).2.2.2.2.1⟩

/-! ## C10: detection notifications -/

/-- The detection loop reads only the player's position. -/
theorem scanDetection_congr (detectionItems : List (DetectArea F)) (delta : F)
    (p q : Character F) (h : p.position = q.position) :
    scanDetection detectionItems delta p = scanDetection detectionItems delta q := by
  induction detectionItems with
  | nil => rfl
  | cons di rest ih => simp only [scanDetection, h, ih]

/-- The detection loop prints one line per area that is active, in bounds and
on channel 1, in list order. -/
theorem scanDetection_eq (detectionItems : List (DetectArea F)) (delta : F)
    (p : Character F) :
    scanDetection detectionItems delta p
      = (detectionItems.filter (fun di =>
          (di.active != 0) && InBounds p.position di.base.rect delta
            && decide (di.channel = 1))).map (fun _ => detectionMessage) := by
  induction detectionItems with
  | nil => rfl
  | cons di rest ih =>
    simp only [scanDetection, ih, List.filter_cons]
    by_cases h1 : ((di.active != 0) && InBounds p.position di.base.rect delta) = true
    · by_cases h2 : di.channel = 1
      · simp [h1, h2]
      · simp [h1, h2]
    · simp [h1]

/-- The lines printed by a step are those of the detection loop run at the
position the step ends with. -/
theorem UpdateCharacter_output (keys : Keys) (player : Character F)
    (envItems : List (EnvItem F)) (detectionItems : List (DetectArea F)) (delta : F) :
    (UpdateCharacter keys player envItems detectionItems delta).2
      = scanDetection detectionItems delta
          (UpdateCharacter keys player envItems detectionItems delta).1 := by
  cases hc : collides envItems (applyKeys keys player delta).position delta with
  | true =>
    simp only [UpdateCharacter, scanObstacles_hit _ _ _ hc]
    exact scanDetection_congr _ _ _ _ rfl
  | false =>
    simp only [UpdateCharacter, scanObstacles_miss _ _ _ hc]
    exact scanDetection_congr _ _ _ _ rfl

/-- Counterexample to C10: a single detection area that is active, contains the
player standing at `(150, 150)`, and has channel 2.  The step prints
nothing. -/
theorem C10_counterexample :
    (channelTwoArea : DetectArea ℚ).active ≠ 0 ∧
      InBounds (UpdateCharacter noKeys (playerAt (150 : ℚ) 150) mainEnvItems [channelTwoArea]
          (1 / 60)).1.position (channelTwoArea : DetectArea ℚ).base.rect (1 / 60) = true ∧
      (UpdateCharacter noKeys (playerAt (150 : ℚ) 150) mainEnvItems [channelTwoArea]
          (1 / 60)).2 = [] := by
  have hc : collides (mainEnvItems : List (EnvItem ℚ))
      (applyKeys noKeys (playerAt (150 : ℚ) 150) (1 / 60)).position (1 / 60) = false := by
    simp only [noKeys, applyKeys_none]
    rw [collides_eq_false_iff]
    simp [mainEnvItems, InBounds, playerAt]
    norm_num
  have hin : InBounds (UpdateCharacter noKeys (playerAt (150 : ℚ) 150) mainEnvItems
      [channelTwoArea] (1 / 60)).1.position (channelTwoArea : DetectArea ℚ).base.rect (1 / 60)
        = true := by
    rw [UpdateCharacter_miss _ _ _ _ _ hc]
    simp only [noKeys, applyKeys_none, InBounds, playerAt, channelTwoArea]
    norm_num
  refine ⟨by decide, hin, ?_⟩
  rw [UpdateCharacter_output, scanDetection_eq]
  simp [channelTwoArea]

/-- C10 (amended): detection notifications.  One `UpdateCharacter` step prints
exactly one notification line for every detection area, in list order, whose
`active` flag is non-zero, whose rectangle has the position the character ends
the step with in bounds at tolerance `delta`, and whose channel is 1; it does
so on every step where that holds, and prints nothing for an area whose
`active` flag is 0, that is out of bounds, or that is on another channel. -/
theorem C10_detection_output (keys : Keys) (player : Character F)
    (envItems : List (EnvItem F)) (detectionItems : List (DetectArea F)) (delta : F) :
    (UpdateCharacter keys player envItems detectionItems delta).2
      = (detectionItems.filter (fun di =>
          (di.active != 0)
            && InBounds (UpdateCharacter keys player envItems detectionItems delta).1.position
                di.base.rect delta
            && decide (di.channel = 1))).map (fun _ => detectionMessage) := by
  rw [UpdateCharacter_output, scanDetection_eq]

/-! ## C11, C19, C20 -/

/-- C11: InBounds definition.  `InBounds` returns true if and only if
`px + t ≥ x`, `px - t ≤ x + w`, `py + t ≥ y` and `py - t ≤ y + h`; equivalently,
if and only if the point lies in the closed rectangle
`[x - t, x + w + t] x [y - t, y + h + t]`, the rectangle expanded by `t` on all
four sides. -/
theorem C11_in_bounds (pos : Vector2 F) (rect : Rectangle F) (t : F) :
    (InBounds pos rect t = true ↔
      pos.x + t ≥ rect.x ∧ pos.x - t ≤ rect.x + rect.width ∧
        pos.y + t ≥ rect.y ∧ pos.y - t ≤ rect.y + rect.height) ∧
    (InBounds pos rect t = true ↔
      (rect.x - t ≤ pos.x ∧ pos.x ≤ rect.x + rect.width + t) ∧
        (rect.y - t ≤ pos.y ∧ pos.y ≤ rect.y + rect.height + t)) := by
  simp only [InBounds, Bool.and_eq_true, decide_eq_true_eq, ge_iff_le]
  constructor
  · constructor
    · rintro ⟨⟨⟨h1, h2⟩, h3⟩, h4⟩
      exact ⟨h1, h2, h3, h4⟩
    · rintro ⟨h1, h2, h3, h4⟩
      exact ⟨⟨⟨h1, h2⟩, h3⟩, h4⟩
  · constructor
    · rintro ⟨⟨⟨h1, h2⟩, h3⟩, h4⟩
      refine ⟨⟨?_, ?_⟩, ?_, ?_⟩ <;> linarith
    · rintro ⟨⟨h1, h2⟩, h3, h4⟩
      refine ⟨⟨⟨?_, ?_⟩, ?_⟩, ?_⟩ <;> linarith

/-- The position after the key tests: each held key adds or subtracts
`200 * delta` on its axis. -/
theorem applyKeys_position (keys : Keys) (player : Character F) (delta : F) :
    (applyKeys keys player delta).position
      = { x := player.position.x + 200 * delta * (keyTerm keys.right - keyTerm keys.left)
          y := player.position.y + 200 * delta * (keyTerm keys.down - keyTerm keys.up) } := by
  obtain ⟨l, r, d, u⟩ := keys
  cases l <;> cases r <;> cases d <;> cases u <;>
    refine Vector2.ext ?_ ?_ <;>
    simp only [applyKeys, keyTerm, PLAYER_SPD, if_true, if_false, Bool.false_eq_true] <;>
    ring

/-- C19: accepted move.  With `l, r, u, d` the four held keys as 0 or 1, if the
moved position `p = (x + 200 * delta * (r - l), y + 200 * delta * (d - u))` is
not in bounds (tolerance `delta`) of any blocking item, then after
`UpdateCharacter` both `position` and `lastPosition` are `p` and the speed is the
old speed plus `400 * delta`.  Opposite keys cancel and a diagonal move is not
normalised. -/
theorem C19_accepted_move (keys : Keys) (player : Character F) (envItems : List (EnvItem F))
    (detectionItems : List (DetectArea F)) (delta : F)
    (h : ∀ ei ∈ envItems, ei.blocking ≠ 0 →
      InBounds
        { x := player.position.x + 200 * delta * (keyTerm keys.right - keyTerm keys.left)
          y := player.position.y + 200 * delta * (keyTerm keys.down - keyTerm keys.up) }
        ei.rect delta = false) :
    (UpdateCharacter keys player envItems detectionItems delta).1.position
        = { x := player.position.x + 200 * delta * (keyTerm keys.right - keyTerm keys.left)
            y := player.position.y + 200 * delta * (keyTerm keys.down - keyTerm keys.up) } ∧
      (UpdateCharacter keys player envItems detectionItems delta).1.lastPosition
        = { x := player.position.x + 200 * delta * (keyTerm keys.right - keyTerm keys.left)
            y := player.position.y + 200 * delta * (keyTerm keys.down - keyTerm keys.up) } ∧
      (UpdateCharacter keys player envItems detectionItems delta).1.speed
        = player.speed + 400 * delta := by
  have hc : collides envItems (applyKeys keys player delta).position delta = false := by
    rw [applyKeys_position]
    exact (collides_eq_false_iff _ _ _).2 h
  rw [UpdateCharacter_miss keys player envItems detectionItems delta hc, applyKeys_position]
  exact ⟨rfl, rfl, rfl⟩

/-- C20: position and lastPosition coincide after every step.  For every
character state, also one whose position differs from its lastPosition, the
state `UpdateCharacter` produces has `position = lastPosition`.  After the reset
branch has put the position at the spawn point `(400, 280)`, a rejected move
sets the position to the lastPosition from before the reset. -/
theorem C20_position_eq_lastPosition (keys : Keys) (player : Character F)
    (envItems : List (EnvItem F)) (detectionItems : List (DetectArea F)) (delta : F) :
    (UpdateCharacter keys player envItems detectionItems delta).1.position
        = (UpdateCharacter keys player envItems detectionItems delta).1.lastPosition ∧
      ∀ s : GameState F,
        (∃ ei ∈ envItems, ei.blocking ≠ 0 ∧
          InBounds (applyKeys keys (resetCommand s).player delta).position ei.rect delta
            = true) →
        (resetCommand s).player.position = { x := 400, y := 280 } ∧
          (UpdateCharacter keys (resetCommand s).player envItems detectionItems delta).1.position
            = s.player.lastPosition := by
  constructor
  · cases hc : collides envItems (applyKeys keys player delta).position delta with
    | true =>
      rw [UpdateCharacter_hit keys player envItems detectionItems delta hc]
    | false =>
      rw [UpdateCharacter_miss keys player envItems detectionItems delta hc]
  · intro s h
    refine ⟨rfl, ?_⟩
    rw [UpdateCharacter_hit keys _ envItems detectionItems delta
      ((collides_eq_true_iff _ _ _).2 h)]
    rfl
/-! ## Lemmas on the frame update -/

/-- The physics step never writes `canJump`. -/
theorem UpdateCharacter_canJump (keys : Keys) (player : Character F)
    (envItems : List (EnvItem F)) (detectionItems : List (DetectArea F)) (delta : F) :
    (UpdateCharacter keys player envItems detectionItems delta).1.canJump = player.canJump := by
  cases hc : collides envItems (applyKeys keys player delta).position delta with
  | true => rw [UpdateCharacter_hit keys player envItems detectionItems delta hc]
  | false => rw [UpdateCharacter_miss keys player envItems detectionItems delta hc]

/-- The zoom after the clamp of lines 149-152. -/
theorem clampZoom_zoom (camera : Camera2D F) :
    (clampZoom camera).zoom
      = if camera.zoom > 3.0 then 3.0 else if camera.zoom < 0.25 then 0.25 else camera.zoom := by
  unfold clampZoom
  split_ifs <;> rfl

/-- The clamp puts the zoom in `[0.25, 3.0]`. -/
theorem clampZoom_range (camera : Camera2D F) :
    0.25 ≤ (clampZoom camera).zoom ∧ (clampZoom camera).zoom ≤ 3.0 := by
  rw [clampZoom_zoom]
  split_ifs with h1 h2
  · norm_num
  · norm_num
  · exact ⟨not_lt.1 h2, not_lt.1 h1⟩

/-- The next index of a valid index is valid. -/
theorem nextCameraOption_range (i : Int) (h0 : 0 ≤ i) (h5 : i < 5) :
    0 ≤ nextCameraOption i ∧ nextCameraOption i < 5 := by
  interval_cases i <;> decide

/-- The zoom is untouched by `UpdateCameraCenterSmoothFollow`. -/
theorem smoothFollow_zoom (L : Vector2 F → F) (camera : Camera2D F) (player : Character F)
    (envItems : List (EnvItem F)) (delta : F) (width height : Int) :
    (UpdateCameraCenterSmoothFollow L camera player envItems delta width height).zoom
      = camera.zoom := by
  simp only [UpdateCameraCenterSmoothFollow]
  split_ifs <;> rfl

/-- The zoom is untouched by `UpdateCameraEvenOutOnLanding`. -/
theorem evenOut_zoom (st : EvenOutState F) (camera : Camera2D F) (player : Character F)
    (envItems : List (EnvItem F)) (delta : F) (width height : Int) :
    (UpdateCameraEvenOutOnLanding st camera player envItems delta width height).2.zoom
      = camera.zoom := by
  simp only [UpdateCameraEvenOutOnLanding]
  split_ifs <;> rfl

/-- A valid index selects an updater; the updater keeps the zoom. -/
theorem callCameraUpdater_zoom (L : Vector2 F → F) (i : Int) (st : EvenOutState F)
    (camera : Camera2D F) (player : Character F) (envItems : List (EnvItem F)) (delta : F)
    (width height : Int) (h0 : 0 ≤ i) (h5 : i < 5) :
    ∃ r, callCameraUpdater L i st camera player envItems delta width height = some r ∧
      r.2.zoom = camera.zoom := by
  interval_cases i
  · exact ⟨_, rfl, rfl⟩
  · exact ⟨_, rfl, centerInsideMap_zoom camera player envItems delta width height⟩
  · exact ⟨_, rfl, smoothFollow_zoom L camera player envItems delta width height⟩
  · exact ⟨_, rfl, evenOut_zoom st camera player envItems delta width height⟩
  · exact ⟨_, rfl, boundsPush_zoom camera player envItems delta width height⟩

/-- The player after lines 142-160. -/
theorem updateBeforeCamera_player (envItems : List (EnvItem F))
    (detectionItems : List (DetectArea F)) (inp : FrameInput F) (s : GameState F) :
    (updateBeforeCamera envItems detectionItems inp s).1.player
      = if inp.keyR then
          { (UpdateCharacter inp.keys s.player envItems detectionItems inp.deltaTime).1 with
            position := { x := 400, y := 280 } }
        else (UpdateCharacter inp.keys s.player envItems detectionItems inp.deltaTime).1 := by
  simp only [updateBeforeCamera, resetCommand]
  split_ifs <;> rfl

/-- The zoom after lines 142-160. -/
theorem updateBeforeCamera_zoom (envItems : List (EnvItem F))
    (detectionItems : List (DetectArea F)) (inp : FrameInput F) (s : GameState F) :
    (updateBeforeCamera envItems detectionItems inp s).1.camera.zoom
      = if inp.keyR then 1.0 else (clampZoom s.camera).zoom := by
  simp only [updateBeforeCamera, resetCommand]
  split_ifs <;> rfl

/-- The index after lines 142-160. -/
theorem updateBeforeCamera_cameraOption (envItems : List (EnvItem F))
    (detectionItems : List (DetectArea F)) (inp : FrameInput F) (s : GameState F) :
    (updateBeforeCamera envItems detectionItems inp s).1.cameraOption
      = if inp.keyC then nextCameraOption s.cameraOption else s.cameraOption := by
  simp only [updateBeforeCamera, resetCommand]
  split_ifs <;> rfl

/-- The index stays valid through lines 142-160. -/
theorem updateBeforeCamera_range (envItems : List (EnvItem F))
    (detectionItems : List (DetectArea F)) (inp : FrameInput F) (s : GameState F)
    (h0 : 0 ≤ s.cameraOption) (h5 : s.cameraOption < 5) :
    0 ≤ (updateBeforeCamera envItems detectionItems inp s).1.cameraOption ∧
      (updateBeforeCamera envItems detectionItems inp s).1.cameraOption < 5 := by
  rw [updateBeforeCamera_cameraOption]
  split_ifs
  · exact nextCameraOption_range _ h0 h5
  · exact ⟨h0, h5⟩

/-- With a valid index a frame returns; its result is the state after lines
142-160 with the camera and the hidden state the selected updater returns, and
that updater keeps the zoom. -/
theorem frame_some (L : Vector2 F → F) (envItems : List (EnvItem F))
    (detectionItems : List (DetectArea F)) (inp : FrameInput F) (s : GameState F)
    (h0 : 0 ≤ s.cameraOption) (h5 : s.cameraOption < 5) :
    ∃ r, callCameraUpdater L (updateBeforeCamera envItems detectionItems inp s).1.cameraOption
          (updateBeforeCamera envItems detectionItems inp s).1.evenOut
          (updateBeforeCamera envItems detectionItems inp s).1.camera
          (updateBeforeCamera envItems detectionItems inp s).1.player
          envItems inp.deltaTime screenWidth screenHeight = some r ∧
      r.2.zoom = (updateBeforeCamera envItems detectionItems inp s).1.camera.zoom ∧
      frame L envItems detectionItems inp s
        = some ({ (updateBeforeCamera envItems detectionItems inp s).1 with
                    evenOut := r.1, camera := r.2 },
                (updateBeforeCamera envItems detectionItems inp s).2) := by
  obtain ⟨hr0, hr5⟩ := updateBeforeCamera_range envItems detectionItems inp s h0 h5
  obtain ⟨r, hr, hz⟩ := callCameraUpdater_zoom L _
    (updateBeforeCamera envItems detectionItems inp s).1.evenOut
    (updateBeforeCamera envItems detectionItems inp s).1.camera
    (updateBeforeCamera envItems detectionItems inp s).1.player
    envItems inp.deltaTime screenWidth screenHeight hr0 hr5
  refine ⟨r, hr, hz, ?_⟩
  simp only [frame, hr]

/-! ## C12, C13, C14 -/

/-- C12: zoom is always clamped.  From any state whose index selects one of
the five strategies, for any input, one frame update (clamp, optional reset,
selected camera updater) returns a state whose zoom lies in `[0.25, 3.0]`.
Without reset it is 3.0 if the old zoom exceeds 3.0, 0.25 if it is below 0.25,
and the old zoom otherwise; with reset it is 1.0.  No strategy writes the
zoom. -/
theorem C12_zoom_clamped (L : Vector2 F → F) (envItems : List (EnvItem F))
    (detectionItems : List (DetectArea F)) (inp : FrameInput F) (s : GameState F)
    (h0 : 0 ≤ s.cameraOption) (h5 : s.cameraOption < 5) :
    ∃ s1 out, frame L envItems detectionItems inp s = some (s1, out) ∧
      0.25 ≤ s1.camera.zoom ∧ s1.camera.zoom ≤ 3.0 ∧
      (inp.keyR = false →
        s1.camera.zoom
          = if s.camera.zoom > 3.0 then 3.0
            else if s.camera.zoom < 0.25 then 0.25 else s.camera.zoom) ∧
      (inp.keyR = true → s1.camera.zoom = 1.0) := by
  obtain ⟨r, -, hz, hf⟩ := frame_some L envItems detectionItems inp s h0 h5
  refine ⟨_, _, hf, ?_⟩
  simp only [hz, updateBeforeCamera_zoom]
  cases hR : inp.keyR with
  | true =>
    simp only [if_true]
    refine ⟨by norm_num, by norm_num, fun h => absurd h (by decide), fun _ => trivial⟩
  | false =>
    simp only [Bool.false_eq_true, if_false]
    exact ⟨(clampZoom_range s.camera).1, (clampZoom_range s.camera).2,
      fun _ => clampZoom_zoom s.camera, fun h => absurd h (by decide)⟩

/-- C13: the strategy index wraps modulo 5.  For every index `i` with
`0 ≤ i < 5`, applying `i := (i + 1) % 5` five times gives `i` again, and after
any number `k ≤ 5` of applications the index is in `0..4`. -/
theorem C13_strategy_index_wraps (i : Int) (h0 : 0 ≤ i) (h5 : i < 5) :
    nextCameraOption^[5] i = i ∧
      ∀ k : Nat, k ≤ 5 → 0 ≤ nextCameraOption^[k] i ∧ nextCameraOption^[k] i < 5 := by
  constructor
  · interval_cases i <;> decide
  · intro k hk
    interval_cases i <;> interval_cases k <;> decide

/-- Witness of C12: the state of `main` with zoom 5, one idle frame; the zoom
comes out as 3.0. -/
theorem C12_zoom_clamped_witness :
    (0 : Int) ≤ (stateWithZoom 5 : GameState ℚ).cameraOption ∧
      (stateWithZoom 5 : GameState ℚ).cameraOption < 5 ∧
      ∃ s1 out,
        frame (fun _ => (0 : ℚ)) mainEnvItems mainDetectionItems idleInput (stateWithZoom 5)
            = some (s1, out) ∧
          s1.camera.zoom = 3.0 := by
  have h0 : (0 : Int) ≤ (stateWithZoom 5 : GameState ℚ).cameraOption := by decide
  have h5 : (stateWithZoom 5 : GameState ℚ).cameraOption < 5 := by decide
  obtain ⟨s1, out, hf, -, -, hz, -⟩ := C12_zoom_clamped (fun _ => (0 : ℚ)) mainEnvItems
    mainDetectionItems idleInput (stateWithZoom 5) h0 h5
  refine ⟨h0, h5, s1, out, hf, ?_⟩
  rw [hz rfl]
  simp only [stateWithZoom, cameraWithZoom]
  norm_num

/-- Witness of C13: the index 1 that `main` starts with. -/
theorem C13_strategy_index_wraps_witness :
    (0 : Int) ≤ 1 ∧ (1 : Int) < 5 ∧ nextCameraOption^[5] 1 = 1 :=
  ⟨by decide, by decide, (C13_strategy_index_wraps 1 (by decide) (by decide)).1⟩

/-- Counterexample to C14: from the initial state of `main`, one frame of
1/10 s with the right key held and R pressed.  The frame ends with the position
at the spawn point `(400, 280)`, but `lastPosition` is `(420, 280)` and the
speed is 40: the character is not in the state `main` spawned it in. -/
theorem C14_counterexample :
    ∃ s1 out,
      frame (fun _ => (0 : ℚ)) mainEnvItems mainDetectionItems resetWhileMovingInput
          (initialState : GameState ℚ) = some (s1, out) ∧
        s1.player.position = { x := 400, y := 280 } ∧
        s1.player.lastPosition = { x := 420, y := 280 } ∧
        s1.player.speed = 40 ∧
        s1.player ≠ initialPlayer := by
  have h0 : (0 : Int) ≤ (initialState : GameState ℚ).cameraOption := by decide
  have h5 : (initialState : GameState ℚ).cameraOption < 5 := by decide
  obtain ⟨r, -, -, hf⟩ := frame_some (fun _ => (0 : ℚ)) mainEnvItems mainDetectionItems
    resetWhileMovingInput (initialState : GameState ℚ) h0 h5
  have hc : collides (mainEnvItems : List (EnvItem ℚ))
      (applyKeys rightKey (initialPlayer : Character ℚ) (1 / 10)).position (1 / 10) = false := by
    rw [applyKeys_position, collides_eq_false_iff]
    simp [mainEnvItems, InBounds, initialPlayer, keyTerm, rightKey]
    norm_num
  have hp : (updateBeforeCamera mainEnvItems mainDetectionItems resetWhileMovingInput
      (initialState : GameState ℚ)).1.player
        = { position := { x := 400, y := 280 }, lastPosition := { x := 420, y := 280 },
            speed := 40, canJump := false } := by
    rw [updateBeforeCamera_player]
    simp only [resetWhileMovingInput, initialState, if_true]
    rw [UpdateCharacter_miss _ _ _ _ _ hc, applyKeys_position]
    simp only [initialPlayer, keyTerm, rightKey, G, Character.mk.injEq, Vector2.mk.injEq]
    norm_num
  refine ⟨_, _, hf, ?_, ?_, ?_, ?_⟩
  · show (updateBeforeCamera mainEnvItems mainDetectionItems resetWhileMovingInput
      (initialState : GameState ℚ)).1.player.position = _
    rw [hp]
  · show (updateBeforeCamera mainEnvItems mainDetectionItems resetWhileMovingInput
      (initialState : GameState ℚ)).1.player.lastPosition = _
    rw [hp]
  · show (updateBeforeCamera mainEnvItems mainDetectionItems resetWhileMovingInput
      (initialState : GameState ℚ)).1.player.speed = _
    rw [hp]
  · show (updateBeforeCamera mainEnvItems mainDetectionItems resetWhileMovingInput
      (initialState : GameState ℚ)).1.player ≠ _
    rw [hp]
    intro h
    have h2 := congrArg Character.speed h
    simp only [initialPlayer] at h2
    norm_num at h2

/-- C14 (amended): reset command.  Whatever the prior state, the reset branch
sets the character's position to exactly `(400, 280)` and the zoom to exactly
1.0, and leaves `lastPosition`, the speed and `canJump` as they were.  A frame
in which R was pressed (index valid) ends with that position and zoom, since no
camera updater writes either, and with the `lastPosition` and speed the physics
step of that frame produced. -/
theorem C14_reset (s : GameState F) :
    (resetCommand s).player.position = { x := 400, y := 280 } ∧
      (resetCommand s).camera.zoom = 1.0 ∧
      (resetCommand s).player.lastPosition = s.player.lastPosition ∧
      (resetCommand s).player.speed = s.player.speed ∧
      (resetCommand s).player.canJump = s.player.canJump ∧
      ∀ (L : Vector2 F → F) (envItems : List (EnvItem F))
        (detectionItems : List (DetectArea F)) (inp : FrameInput F),
        inp.keyR = true → 0 ≤ s.cameraOption → s.cameraOption < 5 →
        ∃ s1 out, frame L envItems detectionItems inp s = some (s1, out) ∧
          s1.player.position = { x := 400, y := 280 } ∧ s1.camera.zoom = 1.0 ∧
          s1.player.lastPosition
            = (UpdateCharacter inp.keys s.player envItems detectionItems
                inp.deltaTime).1.lastPosition ∧
          s1.player.speed
            = (UpdateCharacter inp.keys s.player envItems detectionItems inp.deltaTime).1.speed ∧
          s1.player.canJump = s.player.canJump := by
  refine ⟨rfl, rfl, rfl, rfl, rfl, ?_⟩
  intro L envItems detectionItems inp hR h0 h5
  obtain ⟨r, -, hz, hf⟩ := frame_some L envItems detectionItems inp s h0 h5
  refine ⟨_, _, hf, ?_, ?_, ?_, ?_, ?_⟩
  · simp only [updateBeforeCamera_player, hR, if_true]
  · simp only [hz, updateBeforeCamera_zoom, hR, if_true]
  · simp only [updateBeforeCamera_player, hR, if_true]
  · simp only [updateBeforeCamera_player, hR, if_true]
  · simp only [updateBeforeCamera_player, hR, if_true]
    exact UpdateCharacter_canJump _ _ _ _ _
/-! ## C15 -/

/-- Under a camera whose offset is the box corner, the box maximum in world
space is the target plus the box extent divided by the zoom. -/
theorem bbox_world_max_x (camera : Camera2D F) (width height : Int)
    (h : camera.offset.x = (bboxScreenMin width height : Vector2 F).x) :
    (GetScreenToWorld2D (bboxScreenMax width height) camera).x
      = 0.2 * (width : F) / camera.zoom + camera.target.x := by
  simp only [GetScreenToWorld2D, h, bboxScreenMin, bboxScreenMax]
  congr 1
  congr 1
  ring

/-- The same on the vertical axis. -/
theorem bbox_world_max_y (camera : Camera2D F) (width height : Int)
    (h : camera.offset.y = (bboxScreenMin width height : Vector2 F).y) :
    (GetScreenToWorld2D (bboxScreenMax width height) camera).y
      = 0.2 * (height : F) / camera.zoom + camera.target.y := by
  simp only [GetScreenToWorld2D, h, bboxScreenMin, bboxScreenMax]
  congr 1
  congr 1
  ring

/-- C16: CharacterBoundsPush keeps the character inside the dead box.  For a
camera with zoom > 0 whose offset on entry is the box's top-left screen corner
`((1 - 0.2) * 0.5 * width, (1 - 0.2) * 0.5 * height)` and a viewport of
non-negative size: after `UpdateCameraCharacterBoundsPush` the offset is still
that corner and the character's position lies in the closed dead box mapped to
world space under the updated camera. -/
theorem C16_bounds_push_keeps_inside (camera : Camera2D F) (player : Character F)
    (envItems : List (EnvItem F)) (delta : F) (width height : Int)
    (hz : 0 < camera.zoom) (hw : 0 ≤ width) (hh : 0 ≤ height)
    (hoff : camera.offset = bboxScreenMin width height) :
    (UpdateCameraCharacterBoundsPush camera player envItems delta width height).offset
        = bboxScreenMin width height ∧
      ((GetScreenToWorld2D (bboxScreenMin width height)
          (UpdateCameraCharacterBoundsPush camera player envItems delta width height)).x
          ≤ player.position.x ∧
        player.position.x ≤ (GetScreenToWorld2D (bboxScreenMax width height)
          (UpdateCameraCharacterBoundsPush camera player envItems delta width height)).x) ∧
      ((GetScreenToWorld2D (bboxScreenMin width height)
          (UpdateCameraCharacterBoundsPush camera player envItems delta width height)).y
          ≤ player.position.y ∧
        player.position.y ≤ (GetScreenToWorld2D (bboxScreenMax width height)
          (UpdateCameraCharacterBoundsPush camera player envItems delta width height)).y) := by
  have hoffx : camera.offset.x = (bboxScreenMin width height : Vector2 F).x := by rw [hoff]
  have hoffy : camera.offset.y = (bboxScreenMin width height : Vector2 F).y := by rw [hoff]
  have hw1 : (0 : F) ≤ (width : F) := by exact_mod_cast hw
  have hh1 : (0 : F) ≤ (height : F) := by exact_mod_cast hh
  have hDx : 0 ≤ 0.2 * (width : F) / camera.zoom :=
    div_nonneg (mul_nonneg (by norm_num) hw1) hz.le
  have hDy : 0 ≤ 0.2 * (height : F) / camera.zoom :=
    div_nonneg (mul_nonneg (by norm_num) hh1) hz.le
  have ho := boundsPush_offset camera player envItems delta width height
  have hox : (UpdateCameraCharacterBoundsPush camera player envItems delta width
      height).offset.x = (bboxScreenMin width height : Vector2 F).x := by rw [ho]
  have hoy : (UpdateCameraCharacterBoundsPush camera player envItems delta width
      height).offset.y = (bboxScreenMin width height : Vector2 F).y := by rw [ho]
  refine ⟨ho, ?_, ?_⟩
  · rw [bbox_world_min_x _ _ _ hox, bbox_world_max_x _ _ _ hox, boundsPush_zoom,
      boundsPush_target_x, bbox_world_min_x _ _ _ hoffx, bbox_world_max_x _ _ _ hoffx]
    split_ifs with h1 h2
    · constructor <;> linarith
    · constructor <;> linarith
    · constructor <;> linarith
  · rw [bbox_world_min_y _ _ _ hoy, bbox_world_max_y _ _ _ hoy, boundsPush_zoom,
      boundsPush_target_y, bbox_world_min_y _ _ _ hoffy, bbox_world_max_y _ _ _ hoffy]
    split_ifs with h1 h2
    · constructor <;> linarith
    · constructor <;> linarith
    · constructor <;> linarith

/-- Witness of C16: the anchored camera of `main` and a player 100 units left
of the box. -/
theorem C16_bounds_push_keeps_inside_witness :
    (0 : ℚ) < (anchoredCamera : Camera2D ℚ).zoom ∧ (0 : Int) ≤ 800 ∧ (0 : Int) ≤ 450 ∧
      (anchoredCamera : Camera2D ℚ).offset = bboxScreenMin 800 450 ∧
      (GetScreenToWorld2D (bboxScreenMin 800 450)
          (UpdateCameraCharacterBoundsPush (anchoredCamera : Camera2D ℚ) (playerAt 300 280)
            mainEnvItems (1 / 60) 800 450)).x ≤ (playerAt (300 : ℚ) 280).position.x ∧
      (playerAt (300 : ℚ) 280).position.x
        ≤ (GetScreenToWorld2D (bboxScreenMax 800 450)
          (UpdateCameraCharacterBoundsPush (anchoredCamera : Camera2D ℚ) (playerAt 300 280)
            mainEnvItems (1 / 60) 800 450)).x := by
  have hz : (0 : ℚ) < (anchoredCamera : Camera2D ℚ).zoom := by simp [anchoredCamera]
  have hoff : (anchoredCamera : Camera2D ℚ).offset = bboxScreenMin 800 450 := rfl
  have h := C16_bounds_push_keeps_inside (anchoredCamera : Camera2D ℚ) (playerAt 300 280)
    mainEnvItems (1 / 60) 800 450 hz (by decide) (by decide) hoff
  exact ⟨hz, by decide, by decide, hoff, h.2.1.1, h.2.1.2⟩

/-! ## C17 -/

/-- C17: EvenOutOnLanding trigger.  With the evening-out flag clear, one call
sets `camera.target.x` to the character's `position.x` and leaves
`camera.target.y` unchanged; if `canJump` is true, the speed is 0 and
`position.y` differs from `camera.target.y`, the hidden state becomes flag 1
with stored target Y `position.y`; otherwise the hidden state is unchanged.
The flag is set exactly in the first case. -/
theorem C17_even_out_trigger (st : EvenOutState F) (camera : Camera2D F) (player : Character F)
    (envItems : List (EnvItem F)) (delta : F) (width height : Int)
    (hflag : st.eveningOut = 0) :
    (UpdateCameraEvenOutOnLanding st camera player envItems delta width height).2.target.x
        = player.position.x ∧
      (UpdateCameraEvenOutOnLanding st camera player envItems delta width height).2.target.y
        = camera.target.y ∧
      ((player.canJump = true ∧ player.speed = 0 ∧ player.position.y ≠ camera.target.y) →
        (UpdateCameraEvenOutOnLanding st camera player envItems delta width height).1
          = { eveningOut := 1, evenOutTarget := player.position.y }) ∧
      (¬ (player.canJump = true ∧ player.speed = 0 ∧ player.position.y ≠ camera.target.y) →
        (UpdateCameraEvenOutOnLanding st camera player envItems delta width height).1 = st) ∧
      ((UpdateCameraEvenOutOnLanding st camera player envItems delta width height).1.eveningOut
          ≠ 0 ↔
        (player.canJump = true ∧ player.speed = 0 ∧ player.position.y ≠ camera.target.y)) := by
  have hflag1 : (st.eveningOut != 0) = false := by simp [hflag]
  by_cases hc : player.canJump = true ∧ player.speed = 0 ∧ player.position.y ≠ camera.target.y
  · have hcond : (player.canJump && decide (player.speed = 0) &&
        decide (player.position.y ≠ camera.target.y)) = true := by
      simp [hc.1, hc.2.1, hc.2.2]
    simp only [UpdateCameraEvenOutOnLanding, hflag1, hcond, if_true, Bool.false_eq_true,
      if_false]
    exact ⟨trivial, trivial, fun _ => trivial, fun h => absurd hc h, fun _ => hc,
      fun _ => by decide⟩
  · have hcond : (player.canJump && decide (player.speed = 0) &&
        decide (player.position.y ≠ camera.target.y)) = false := by
      rw [Bool.eq_false_iff]
      intro h
      simp only [Bool.and_eq_true, decide_eq_true_eq] at h
      exact hc ⟨h.1.1, h.1.2, h.2⟩
    simp only [UpdateCameraEvenOutOnLanding, hflag1, hcond, if_true, Bool.false_eq_true,
      if_false]
    exact ⟨trivial, trivial, fun h => absurd h hc, fun _ => trivial, fun h => absurd hflag h,
      fun h => absurd h hc⟩

/-- Witness of C17: a grounded player at rest 20 units below the camera target
of `main`. -/
theorem C17_even_out_trigger_witness :
    (EvenOutState.initial : EvenOutState ℚ).eveningOut = 0 ∧
      (UpdateCameraEvenOutOnLanding (EvenOutState.initial : EvenOutState ℚ) initialCamera
          { position := { x := 400, y := 300 }, lastPosition := { x := 400, y := 300 },
            speed := 0, canJump := true } mainEnvItems (1 / 60) 800 450).1
        = { eveningOut := 1, evenOutTarget := 300 } :=
  ⟨rfl, (C17_even_out_trigger (EvenOutState.initial : EvenOutState ℚ) initialCamera
      { position := { x := 400, y := 300 }, lastPosition := { x := 400, y := 300 },
        speed := 0, canJump := true } mainEnvItems (1 / 60) 800 450 rfl).2.2.1
      ⟨rfl, rfl, by simp only [initialCamera]; norm_num⟩⟩

/-! ## C18 -/

/-- A running minimum is below its start, below every value seen, and is the
start or one of the values seen. -/
theorem foldl_min_spec {α : Type} (f : α → F) (l : List α) (a : F) :
    l.foldl (fun acc e => min (f e) acc) a ≤ a ∧
      (∀ e ∈ l, l.foldl (fun acc e => min (f e) acc) a ≤ f e) ∧
      (l.foldl (fun acc e => min (f e) acc) a = a ∨
        ∃ e ∈ l, l.foldl (fun acc e => min (f e) acc) a = f e) := by
  induction l generalizing a with
  | nil => exact ⟨le_rfl, fun e he => absurd he (List.not_mem_nil e), Or.inl rfl⟩
  | cons x rest ih =>
    obtain ⟨h1, h2, h3⟩ := ih (min (f x) a)
    simp only [List.foldl_cons]
    refine ⟨h1.trans (min_le_right _ _), ?_, ?_⟩
    · intro e he
      rcases List.mem_cons.1 he with rfl | he
      · exact h1.trans (min_le_left _ _)
      · exact h2 e he
    · rcases h3 with h3 | ⟨e, he, h3⟩
      · rcases min_choice (f x) a with hm | hm
        · exact Or.inr ⟨x, List.mem_cons_self _ _, h3.trans hm⟩
        · exact Or.inl (h3.trans hm)
      · exact Or.inr ⟨e, List.mem_cons_of_mem _ he, h3⟩

/-- A running maximum is above its start, above every value seen, and is the
start or one of the values seen. -/
theorem foldl_max_spec {α : Type} (f : α → F) (l : List α) (a : F) :
    a ≤ l.foldl (fun acc e => max (f e) acc) a ∧
      (∀ e ∈ l, f e ≤ l.foldl (fun acc e => max (f e) acc) a) ∧
      (l.foldl (fun acc e => max (f e) acc) a = a ∨
        ∃ e ∈ l, l.foldl (fun acc e => max (f e) acc) a = f e) := by
  induction l generalizing a with
  | nil => exact ⟨le_rfl, fun e he => absurd he (List.not_mem_nil e), Or.inl rfl⟩
  | cons x rest ih =>
    obtain ⟨h1, h2, h3⟩ := ih (max (f x) a)
    simp only [List.foldl_cons]
    refine ⟨(le_max_right _ _).trans h1, ?_, ?_⟩
    · intro e he
      rcases List.mem_cons.1 he with rfl | he
      · exact (le_max_left _ _).trans h1
      · exact h2 e he
    · rcases h3 with h3 | ⟨e, he, h3⟩
      · rcases max_choice (f x) a with hm | hm
        · exact Or.inr ⟨x, List.mem_cons_self _ _, h3.trans hm⟩
        · exact Or.inl (h3.trans hm)
      · exact Or.inr ⟨e, List.mem_cons_of_mem _ he, h3⟩

/-- The loop of `UpdateCameraCenterInsideMap` is four independent running
extremes. -/
theorem scanBounds_eq (envItems : List (EnvItem F)) (b : MapBounds F) :
    scanBounds envItems b
      = { minX := envItems.foldl (fun acc ei => min ei.rect.x acc) b.minX
          minY := envItems.foldl (fun acc ei => min ei.rect.y acc) b.minY
          maxX := envItems.foldl (fun acc ei => max (ei.rect.x + ei.rect.width) acc) b.maxX
          maxY := envItems.foldl (fun acc ei => max (ei.rect.y + ei.rect.height) acc) b.maxY } := by
  induction envItems generalizing b with
  | nil => rfl
  | cons ei rest ih =>
    simp only [scanBounds, List.foldl_cons]
    exact ih _

/-- The box the loop computes is the bounding box of the items whenever the
items reach into the box of the starting values: some item has `x ≤ 1000`,
some has `y ≤ 1000`, some has `x + width ≥ -1000` and some has
`y + height ≥ -1000`. -/
theorem mapBounds_isBoundingBox (envItems : List (EnvItem F))
    (hx : ∃ ei ∈ envItems, ei.rect.x ≤ 1000) (hy : ∃ ei ∈ envItems, ei.rect.y ≤ 1000)
    (hX : ∃ ei ∈ envItems, -1000 ≤ ei.rect.x + ei.rect.width)
    (hY : ∃ ei ∈ envItems, -1000 ≤ ei.rect.y + ei.rect.height) :
    IsBoundingBox envItems (mapBounds envItems) := by
  simp only [mapBounds, scanBounds_eq, IsBoundingBox]
  refine ⟨?_, ?_, ?_, ?_⟩
  · obtain ⟨-, h2, h3⟩ := foldl_min_spec (fun ei : EnvItem F => ei.rect.x) envItems 1000
    refine ⟨h2, ?_⟩
    rcases h3 with h3 | h3
    · obtain ⟨ei, hei, hle⟩ := hx
      exact ⟨ei, hei, le_antisymm (h2 ei hei) (hle.trans h3.ge)⟩
    · exact h3
  · obtain ⟨-, h2, h3⟩ := foldl_min_spec (fun ei : EnvItem F => ei.rect.y) envItems 1000
    refine ⟨h2, ?_⟩
    rcases h3 with h3 | h3
    · obtain ⟨ei, hei, hle⟩ := hy
      exact ⟨ei, hei, le_antisymm (h2 ei hei) (hle.trans h3.ge)⟩
    · exact h3
  · obtain ⟨-, h2, h3⟩ :=
      foldl_max_spec (fun ei : EnvItem F => ei.rect.x + ei.rect.width) envItems (-1000)
    refine ⟨h2, ?_⟩
    rcases h3 with h3 | h3
    · obtain ⟨ei, hei, hle⟩ := hX
      exact ⟨ei, hei, le_antisymm (h3.le.trans hle) (h2 ei hei)⟩
    · exact h3
  · obtain ⟨-, h2, h3⟩ :=
      foldl_max_spec (fun ei : EnvItem F => ei.rect.y + ei.rect.height) envItems (-1000)
    refine ⟨h2, ?_⟩
    rcases h3 with h3 | h3
    · obtain ⟨ei, hei, hle⟩ := hY
      exact ⟨ei, hei, le_antisymm (h3.le.trans hle) (h2 ei hei)⟩
    · exact h3

/-- On the level of `main` the loop computes the bounding box. -/
theorem mapBounds_main :
    IsBoundingBox (mainEnvItems : List (EnvItem ℚ)) (mapBounds mainEnvItems) := by
  apply mapBounds_isBoundingBox
  · exact ⟨_, List.mem_cons_self _ _, by norm_num⟩
  · exact ⟨_, List.mem_cons_self _ _, by norm_num⟩
  · exact ⟨_, List.mem_cons_self _ _, by norm_num⟩
  · exact ⟨_, List.mem_cons_self _ _, by norm_num⟩

/-- C18 at a failing input: a level of one item at `x = 2000`.  The loop
starts its minimum at 1000 and returns `minX = 1000`, which is the `x` of no
item; the box it returns is not the bounding box of the items. -/
theorem C18_far_level_failure :
    (farEnvItems : List (EnvItem ℚ)) ≠ [] ∧
      mapBounds (farEnvItems : List (EnvItem ℚ))
        = { minX := 1000, minY := 0, maxX := 2100, maxY := 100 } ∧
      (∀ ei ∈ (farEnvItems : List (EnvItem ℚ)), ei.rect.x = 2000) ∧
      ¬ IsBoundingBox (farEnvItems : List (EnvItem ℚ)) (mapBounds farEnvItems) := by
  have hb : mapBounds (farEnvItems : List (EnvItem ℚ))
      = { minX := 1000, minY := 0, maxX := 2100, maxY := 100 } := by
    simp only [mapBounds, farEnvItems, scanBounds]
    norm_num
  have hall : ∀ ei ∈ (farEnvItems : List (EnvItem ℚ)), ei.rect.x = 2000 := by
    intro ei hei
    simp only [farEnvItems, List.mem_singleton] at hei
    rw [hei]
  refine ⟨by simp [farEnvItems], hb, hall, ?_⟩
  rintro ⟨⟨-, ei, hei, hmin⟩, -⟩
  rw [hb, hall ei hei] at hmin
  norm_num at hmin

/-- Witness of C19: from the spawn point of `main`, holding right for a frame
of 1/10 s moves the player 20 units. -/
theorem C19_accepted_move_witness :
    (∀ ei ∈ (mainEnvItems : List (EnvItem ℚ)), ei.blocking ≠ 0 →
        InBounds
          { x := (initialPlayer : Character ℚ).position.x
              + 200 * (1 / 10) * (keyTerm rightKey.right - keyTerm rightKey.left)
            y := (initialPlayer : Character ℚ).position.y
              + 200 * (1 / 10) * (keyTerm rightKey.down - keyTerm rightKey.up) }
          ei.rect (1 / 10) = false) ∧
      (UpdateCharacter rightKey (initialPlayer : Character ℚ) mainEnvItems mainDetectionItems
          (1 / 10)).1.position
        = { x := (initialPlayer : Character ℚ).position.x
              + 200 * (1 / 10) * (keyTerm rightKey.right - keyTerm rightKey.left)
            y := (initialPlayer : Character ℚ).position.y
              + 200 * (1 / 10) * (keyTerm rightKey.down - keyTerm rightKey.up) } ∧
      (initialPlayer : Character ℚ).position.x
          + 200 * (1 / 10) * (keyTerm rightKey.right - keyTerm rightKey.left) = 420 := by
  have h : ∀ ei ∈ (mainEnvItems : List (EnvItem ℚ)), ei.blocking ≠ 0 →
      InBounds
        { x := (initialPlayer : Character ℚ).position.x
            + 200 * (1 / 10) * (keyTerm rightKey.right - keyTerm rightKey.left)
          y := (initialPlayer : Character ℚ).position.y
            + 200 * (1 / 10) * (keyTerm rightKey.down - keyTerm rightKey.up) }
        ei.rect (1 / 10) = false := by
    simp [mainEnvItems, InBounds, initialPlayer, keyTerm, rightKey]
    norm_num
  refine ⟨h, (C19_accepted_move rightKey initialPlayer mainEnvItems mainDetectionItems
    (1 / 10) h).1, ?_⟩
  simp only [initialPlayer, keyTerm, rightKey]
  norm_num

end BrewingGame
